import Mathlib

/-
Verification of the Education-Ecosystem Django application (myapp).
A shallow embedding of the data model (models.py), forms (forms.py),
view handlers (views.py) and the admin bulk action (admin.py), with
theorems settling the specification claims.

Roles, statuses and target-role selectors are raw strings, as in the
source; database tables are lists of records; handlers are pure
functions from a database state and request data to a new state and a
response (redirect with flash messages, rendered page, or 404).
-/

namespace EduEco

/-! ### String helpers (Django `icontains` is a case-insensitive substring test) -/

/-- Does the first list occur as a leading segment of the second? -/
def leadsWith : List Char → List Char → Bool
  | [], _ => true
  | _ :: _, [] => false
  | a :: as, b :: bs => a == b && leadsWith as bs

/-- Does `needle` occur as a contiguous sublist of the second argument? -/
def subListOf (needle : List Char) : List Char → Bool
  | [] => needle.isEmpty
  | b :: bs => leadsWith needle (b :: bs) || subListOf needle bs

/-- Lower-case every character of a string. -/
def strLower (s : String) : String := String.mk (s.toList.map Char.toLower)

/-- `hay.contains needle` as a raw (case-sensitive) substring test. -/
def strContains (hay needle : String) : Bool := subListOf needle.toList hay.toList

/-- Django ORM `field__icontains=needle`: case-insensitive substring test. -/
def icontains (hay needle : String) : Bool :=
  strContains (strLower hay) (strLower needle)

/-! ### Data model (models.py) -/

/-- django.contrib.auth User (the fields the app reads). -/
structure UserRec where
  id : Nat
  username : String
  is_superuser : Bool
  deriving Repr, DecidableEq

/-- Profile: per-user extension record carrying the role string. -/
structure ProfileRec where
  user : Nat
  role : String
  deriving Repr, DecidableEq

/-- Course: taught by `teacher`, with enrolled `students` (m2m), unique `course_code`. -/
structure CourseRec where
  id : Nat
  title : String
  description : String
  teacher : Nat
  students : List Nat
  course_code : String
  is_active : Bool
  deriving Repr, DecidableEq

/-- Lesson: belongs to a course. -/
structure LessonRec where
  id : Nat
  course : Nat
  title : String
  description : String
  order : Int
  deriving Repr, DecidableEq

/-- Assignment: belongs to a course, created by a user. -/
structure AssignmentRec where
  id : Nat
  course : Nat
  title : String
  description : String
  max_marks : Int
  created_by : Nat
  deriving Repr, DecidableEq

/-- Submission: unique_together (assignment, student); status pending|graded. -/
structure SubmissionRec where
  id : Nat
  assignment : Nat
  student : Nat
  file : String
  marks_obtained : Option Int
  feedback : Option String
  status : String
  graded_by : Option Nat
  graded_at : Option Nat
  deriving Repr, DecidableEq

/-- Announcement: `target_roles` is "all" or a comma-joined list of role tags. -/
structure AnnouncementRec where
  id : Nat
  title : String
  content : String
  created_by : Nat
  target_roles : String
  is_active : Bool
  deriving Repr, DecidableEq

/-- Attendance: unique_together (student, course, date); status present|absent|late. -/
structure AttendanceRec where
  student : Nat
  course : Nat
  date : String
  status : String
  remarks : String
  marked_by : Nat
  deriving Repr, DecidableEq

/-- The database state: one list per table. -/
structure DB where
  users : List UserRec
  profiles : List ProfileRec
  courses : List CourseRec
  lessons : List LessonRec
  assignments : List AssignmentRec
  submissions : List SubmissionRec
  announcements : List AnnouncementRec
  attendance : List AttendanceRec
  deriving Repr, DecidableEq

/-! ### Responses -/

/-- Named URL targets used by `redirect(...)` calls in views.py. -/
inductive Target where
  | login
  | dashboard
  | dashboard_admin
  | dashboard_teacher
  | dashboard_student
  | dashboard_parent
  | adminPanel
  | user_list
  | course_list
  | course_detail (course_id : Nat)
  | assignment_detail (assignment_id : Nat)
  | compliance_list
  | feedback_list
  | attendance_list
  | announcement_list
  deriving Repr, DecidableEq

/-- Flash-message level (django.contrib.messages). -/
inductive MsgLevel where
  | success
  | info
  | warning
  | error
  deriving Repr, DecidableEq

/-- Handler outcome: a redirect carrying flash messages, a rendered page, or 404. -/
inductive Resp where
  | redirect (target : Target) (msgs : List (MsgLevel × String))
  | render (page : String)
  | notFound
  deriving Repr, DecidableEq

/-! ### Fresh primary keys (Django auto-assigns ascending ids) -/

def nextUserId (db : DB) : Nat := (db.users.foldl (fun m u => max m u.id) 0) + 1

def nextCourseId (db : DB) : Nat := (db.courses.foldl (fun m c => max m c.id) 0) + 1

def nextLessonId (db : DB) : Nat := (db.lessons.foldl (fun m l => max m l.id) 0) + 1

def nextAssignmentId (db : DB) : Nat :=
  (db.assignments.foldl (fun m a => max m a.id) 0) + 1

def nextSubmissionId (db : DB) : Nat :=
  (db.submissions.foldl (fun m s => max m s.id) 0) + 1

def nextAnnouncementId (db : DB) : Nat :=
  (db.announcements.foldl (fun m a => max m a.id) 0) + 1

/-! ### Form data (forms.py) and validation -/

/-- POST payload of UserRegisterForm. -/
structure RegisterPost where
  username : String
  first_name : String
  last_name : String
  email : String
  password1 : String
  password2 : String
  role : String
  deriving Repr, DecidableEq

/-- The role ChoiceField of UserRegisterForm offers exactly these choices. -/
def registerRoleChoices : List String := ["student", "teacher", "parent"]

/-- UserRegisterForm.is_valid: unique username, matching passwords, required
fields present, and role drawn from the form's choices. -/
def userRegisterFormValid (db : DB) (p : RegisterPost) : Bool :=
  !(db.users.any (fun u => u.username == p.username)) &&
  p.password1 == p.password2 &&
  !p.username.isEmpty && !p.email.isEmpty &&
  !p.first_name.isEmpty && !p.last_name.isEmpty &&
  registerRoleChoices.contains p.role

/-- POST payload of CourseForm (fields title, description, teacher, course_code, is_active). -/
structure CoursePost where
  title : String
  description : String
  teacher : Nat
  course_code : String
  is_active : Bool
  deriving Repr, DecidableEq

/-- CourseForm.is_valid: the teacher choice is restricted to users whose profile
role is teacher, and course_code is globally unique (excluding the edited
instance, when any). -/
def courseFormValid (db : DB) (excluded : Option Nat) (p : CoursePost) : Bool :=
  db.profiles.any (fun pr => pr.user == p.teacher && pr.role == "teacher") &&
  !(db.courses.any (fun c => c.course_code == p.course_code && excluded != some c.id))

/-- POST payload of LessonForm (the model fields the claims touch). -/
structure LessonPost where
  course : Nat
  title : String
  description : String
  order : Int
  deriving Repr, DecidableEq

/-- LessonForm.is_valid: the course ModelChoiceField must name an existing course. -/
def lessonFormValid (db : DB) (p : LessonPost) : Bool :=
  db.courses.any (fun c => c.id == p.course)

/-- POST payload of AssignmentForm. -/
structure AssignmentPost where
  course : Nat
  title : String
  description : String
  max_marks : Int
  deriving Repr, DecidableEq

/-- AssignmentForm.is_valid: the course ModelChoiceField must name an existing course. -/
def assignmentFormValid (db : DB) (p : AssignmentPost) : Bool :=
  db.courses.any (fun c => c.id == p.course)

/-- POST payload of SubmissionForm: a single required file field. -/
structure SubmissionPost where
  file : String
  deriving Repr, DecidableEq

/-- Submission.STATUS_CHOICES in models.py. -/
def submissionStatusChoices : List String := ["pending", "graded"]

/-- POST payload of GradingForm (fields marks_obtained, feedback, status). -/
structure GradePost where
  marks_obtained : Option Int
  feedback : Option String
  status : String
  deriving Repr, DecidableEq

/-- GradingForm.is_valid: the status ChoiceField must be one of STATUS_CHOICES;
marks and feedback are optional (null/blank allowed on the model). -/
def gradingFormValid (p : GradePost) : Bool :=
  submissionStatusChoices.contains p.status

/-- POST payload of the attendance_mark form: a course, a date, and per-student
`status_{id}` / `remarks_{id}` entries (absent key = no status given). -/
structure AttendancePost where
  course : Nat
  date : String
  statuses : List (Nat × String)
  remarks : List (Nat × String)
  deriving Repr, DecidableEq

/-- POST payload of the announcement create/edit form (raw request.POST reads). -/
structure AnnouncementPost where
  title : String
  content : String
  target_all : Bool
  target_roles_list : List String
  is_active : Bool
  deriving Repr, DecidableEq

/-- views.announcement_create / announcement_edit: the stored target_roles
string is "all" when the target_all box is ticked or no role was ticked,
else the comma-join of the ticked roles. -/
def announcementTargetRoles (p : AnnouncementPost) : String :=
  if p.target_all then "all"
  else if p.target_roles_list.isEmpty then "all"
  else String.intercalate "," p.target_roles_list

/-! ### View handlers (views.py) -/

/-- The role of a user id, read through the profile table (request.user.profile.role). -/
def roleOf (db : DB) (userId : Nat) : Option String :=
  (db.profiles.find? (fun pr => pr.user == userId)).map (·.role)

/-- views.register_view: on a valid form, create the User, then the Profile for
it (get_or_create, since the creation signal lives outside this app's code)
and store the chosen role on it; redirect to login with a success message.
On an invalid or absent POST, re-render the registration form. -/
def register_view (db : DB) (post : Option RegisterPost) : DB × Resp :=
  match post with
  | some p =>
    if userRegisterFormValid db p then
      let uid := nextUserId db
      let newUser : UserRec := ⟨uid, p.username, false⟩
      let newProfile : ProfileRec := ⟨uid, p.role⟩
      let db1 : DB := { db with users := db.users ++ [newUser] }
      let db2 : DB :=
        if db1.profiles.any (fun pr => pr.user == uid) then
          { db1 with profiles := db1.profiles.map (fun pr =>
              if pr.user == uid then { pr with role := p.role } else pr) }
        else
          { db1 with profiles := db1.profiles ++ [newProfile] }
      (db2, .redirect .login
        [(.success, "Account created for " ++ p.username ++ "! You can now log in.")])
    else (db, .render "registration/register.html")
  | none => (db, .render "registration/register.html")

/-- views.dashboard_view: route by profile role; if the profile is missing,
create one with role admin for superusers and student otherwise, then route. -/
def dashboard_view (db : DB) (u : UserRec) : DB × Resp :=
  match db.profiles.find? (fun pr => pr.user == u.id) with
  | some pr =>
    if pr.role == "admin" then (db, .redirect .dashboard_admin [])
    else if pr.role == "teacher" then (db, .redirect .dashboard_teacher [])
    else if pr.role == "student" then (db, .redirect .dashboard_student [])
    else if pr.role == "parent" then (db, .redirect .dashboard_parent [])
    else (db, .redirect .login [(.error, "Invalid user role.")])
  | none =>
    let role := if u.is_superuser then "admin" else "student"
    let db' := { db with profiles := db.profiles ++ [⟨u.id, role⟩] }
    let msg : MsgLevel × String := (.info, "Profile created. Please update your settings.")
    if role == "admin" then (db', .redirect .dashboard_admin [msg])
    else (db', .redirect .dashboard_student [msg])

/-- views.user_list: admin only; renders the user list, no writes. -/
def user_list (db : DB) (userId : Nat) (role : String) : DB × Resp :=
  if role != "admin" then
    (db, .redirect .dashboard [(.error, "Access denied.")])
  else
    (db, .render "user_list.html")

/-- views.compliance_list: admin only; renders the report list, no writes. -/
def compliance_list (db : DB) (userId : Nat) (role : String) : DB × Resp :=
  if role != "admin" then
    (db, .redirect .dashboard [(.error, "Access denied.")])
  else
    (db, .render "compliance_list.html")

/-- views.course_create: admin/teacher only; valid POST creates the course. -/
def course_create (db : DB) (userId : Nat) (role : String) (post : Option CoursePost) :
    DB × Resp :=
  if !(role == "admin" || role == "teacher") then
    (db, .redirect .dashboard [(.error, "Access denied.")])
  else match post with
  | some p =>
    if courseFormValid db none p then
      let c : CourseRec :=
        ⟨nextCourseId db, p.title, p.description, p.teacher, [], p.course_code, p.is_active⟩
      ({ db with courses := db.courses ++ [c] },
       .redirect .course_list [(.success, "Course " ++ p.title ++ " created successfully!")])
    else (db, .render "course_form.html")
  | none => (db, .render "course_form.html")

/-- views.course_edit: admin/teacher only; a teacher may only edit their own
course (else an error message and a redirect to the course list); a valid
POST updates the course in place. -/
def course_edit (db : DB) (userId : Nat) (role : String) (courseId : Nat)
    (post : Option CoursePost) : DB × Resp :=
  if !(role == "admin" || role == "teacher") then
    (db, .redirect .dashboard [(.error, "Access denied.")])
  else match db.courses.find? (fun c => c.id == courseId) with
  | none => (db, .notFound)
  | some course =>
    if role == "teacher" && course.teacher != userId then
      (db, .redirect .course_list [(.error, "You can only edit your own courses.")])
    else match post with
    | some p =>
      if courseFormValid db (some course.id) p then
        ({ db with courses := db.courses.map (fun c =>
            if c.id == courseId then
              { c with title := p.title, description := p.description,
                       teacher := p.teacher, course_code := p.course_code,
                       is_active := p.is_active }
            else c) },
         .redirect (.course_detail course.id)
           [(.success, "Course " ++ course.title ++ " updated successfully!")])
      else (db, .render "course_form.html")
    | none => (db, .render "course_form.html")

/-- views.course_delete: admin/teacher only; a teacher may only delete their own
course (else an error message and a redirect to the course list); a POST
hard-deletes the course and, by the FK cascades, its lessons, assignments,
the submissions of those assignments, and its attendance rows. -/
def course_delete (db : DB) (userId : Nat) (role : String) (courseId : Nat)
    (isPost : Bool) : DB × Resp :=
  if !(role == "admin" || role == "teacher") then
    (db, .redirect .dashboard [(.error, "Access denied.")])
  else match db.courses.find? (fun c => c.id == courseId) with
  | none => (db, .notFound)
  | some course =>
    if role == "teacher" && course.teacher != userId then
      (db, .redirect .course_list [(.error, "You can only delete your own courses.")])
    else if isPost then
      let deadAssignments := (db.assignments.filter (fun a => a.course == courseId)).map (·.id)
      ({ db with
          courses := db.courses.filter (fun c => !(c.id == courseId)),
          lessons := db.lessons.filter (fun l => !(l.course == courseId)),
          assignments := db.assignments.filter (fun a => !(a.course == courseId)),
          submissions := db.submissions.filter (fun s => !(deadAssignments.contains s.assignment)),
          attendance := db.attendance.filter (fun a => !(a.course == courseId)) },
       .redirect .course_list
         [(.success, "Course " ++ course.title ++ " deleted successfully!")])
    else (db, .render "course_confirm_delete.html")

/-- views.lesson_create: admin/teacher only; valid POST creates the lesson. -/
def lesson_create (db : DB) (userId : Nat) (role : String) (courseId : Nat)
    (post : Option LessonPost) : DB × Resp :=
  if !(role == "admin" || role == "teacher") then
    (db, .redirect .dashboard [(.error, "Access denied.")])
  else match db.courses.find? (fun c => c.id == courseId) with
  | none => (db, .notFound)
  | some course =>
    match post with
    | some p =>
      if lessonFormValid db p then
        ({ db with lessons :=
            db.lessons ++ [⟨nextLessonId db, p.course, p.title, p.description, p.order⟩] },
         .redirect (.course_detail course.id)
           [(.success, "Lesson " ++ p.title ++ " created successfully!")])
      else (db, .render "lesson_form.html")
    | none => (db, .render "lesson_form.html")

/-- views.lesson_edit: admin/teacher only; a teacher may only edit lessons of
their own courses (else an error message and a redirect to that course's
detail page); a valid POST updates the lesson in place. -/
def lesson_edit (db : DB) (userId : Nat) (role : String) (lessonId : Nat)
    (post : Option LessonPost) : DB × Resp :=
  if !(role == "admin" || role == "teacher") then
    (db, .redirect .dashboard [(.error, "Access denied.")])
  else match db.lessons.find? (fun l => l.id == lessonId) with
  | none => (db, .notFound)
  | some lesson =>
    if role == "teacher" &&
        ((db.courses.find? (fun c => c.id == lesson.course)).map (·.teacher)) != some userId then
      (db, .redirect (.course_detail lesson.course)
        [(.error, "You can only edit lessons from your own courses.")])
    else match post with
    | some p =>
      if lessonFormValid db p then
        ({ db with lessons := db.lessons.map (fun l =>
            if l.id == lessonId then
              { l with course := p.course, title := p.title,
                       description := p.description, order := p.order }
            else l) },
         .redirect (.course_detail p.course)
           [(.success, "Lesson " ++ lesson.title ++ " updated successfully!")])
      else (db, .render "lesson_form.html")
    | none => (db, .render "lesson_form.html")

/-- views.lesson_delete: admin/teacher only; a teacher may only delete lessons
of their own courses (else an error message and a redirect to that course's
detail page); a POST deletes the lesson. -/
def lesson_delete (db : DB) (userId : Nat) (role : String) (lessonId : Nat)
    (isPost : Bool) : DB × Resp :=
  if !(role == "admin" || role == "teacher") then
    (db, .redirect .dashboard [(.error, "Access denied.")])
  else match db.lessons.find? (fun l => l.id == lessonId) with
  | none => (db, .notFound)
  | some lesson =>
    if role == "teacher" &&
        ((db.courses.find? (fun c => c.id == lesson.course)).map (·.teacher)) != some userId then
      (db, .redirect (.course_detail lesson.course)
        [(.error, "You can only delete lessons from your own courses.")])
    else if isPost then
      ({ db with lessons := db.lessons.filter (fun l => !(l.id == lessonId)) },
       .redirect (.course_detail lesson.course)
         [(.success, "Lesson " ++ lesson.title ++ " deleted successfully!")])
    else (db, .render "lesson_confirm_delete.html")

/-- views.assignment_create: admin/teacher only; a valid POST creates the
assignment with created_by set to the acting user. -/
def assignment_create (db : DB) (userId : Nat) (role : String) (courseId : Nat)
    (post : Option AssignmentPost) : DB × Resp :=
  if !(role == "admin" || role == "teacher") then
    (db, .redirect .dashboard [(.error, "Access denied.")])
  else match db.courses.find? (fun c => c.id == courseId) with
  | none => (db, .notFound)
  | some course =>
    match post with
    | some p =>
      if assignmentFormValid db p then
        ({ db with assignments := db.assignments ++
            [⟨nextAssignmentId db, p.course, p.title, p.description, p.max_marks, userId⟩] },
         .redirect (.course_detail course.id)
           [(.success, "Assignment " ++ p.title ++ " created successfully!")])
      else (db, .render "assignment_form.html")
    | none => (db, .render "assignment_form.html")

/-- views.submission_create: students only; if a submission for this
(assignment, student) pair already exists, warn and redirect to the
assignment detail page without writing; otherwise a POST creates the one
new pending submission row. -/
def submission_create (db : DB) (userId : Nat) (role : String) (assignmentId : Nat)
    (post : Option SubmissionPost) : DB × Resp :=
  if role != "student" then
    (db, .redirect .dashboard [(.error, "Access denied. Students only.")])
  else match db.assignments.find? (fun a => a.id == assignmentId) with
  | none => (db, .notFound)
  | some assignment =>
    if (db.submissions.find? (fun s =>
        s.assignment == assignment.id && s.student == userId)).isSome then
      (db, .redirect (.assignment_detail assignment.id)
        [(.warning, "You have already submitted this assignment.")])
    else match post with
    | some p =>
      ({ db with submissions := db.submissions ++
          [⟨nextSubmissionId db, assignment.id, userId, p.file,
            none, none, "pending", none, none⟩] },
       .redirect (.assignment_detail assignment.id)
         [(.success, "Assignment submitted successfully!")])
    | none => (db, .render "submission_form.html")

/-- views.submission_grade: admin/teacher only; a valid POST stores the form's
marks_obtained, feedback and status on the submission and stamps graded_by
with the acting user and graded_at with the current time, in one save. -/
def submission_grade (db : DB) (userId : Nat) (role : String) (now : Nat)
    (submissionId : Nat) (post : Option GradePost) : DB × Resp :=
  if !(role == "admin" || role == "teacher") then
    (db, .redirect .dashboard [(.error, "Access denied.")])
  else match db.submissions.find? (fun s => s.id == submissionId) with
  | none => (db, .notFound)
  | some submission =>
    match post with
    | some p =>
      if gradingFormValid p then
        ({ db with submissions := db.submissions.map (fun s =>
            if s.id == submissionId then
              { s with marks_obtained := p.marks_obtained, feedback := p.feedback,
                       status := p.status, graded_by := some userId,
                       graded_at := some now }
            else s) },
         .redirect (.assignment_detail submission.assignment)
           [(.success, "Submission graded successfully!")])
      else (db, .render "submission_grade.html")
    | none => (db, .render "submission_grade.html")

/-- admin.SubmissionAdmin.mark_graded: queryset.update(status='graded') on the
selected submissions; it touches no other field. -/
def mark_graded (subs : List SubmissionRec) (selected : List Nat) : List SubmissionRec :=
  subs.map (fun s => if selected.contains s.id then { s with status := "graded" } else s)

/-! ### Attendance marking (views.attendance_mark) -/

/-- Does the attendance row carry the upsert key (student, course, date)? -/
def attKey (a : AttendanceRec) (s c : Nat) (d : String) : Bool :=
  a.student == s && a.course == c && a.date == d

/-- Loop state of the marking loop: the attendance table plus the two counters. -/
structure MarkAcc where
  atts : List AttendanceRec
  updated_count : Nat
  created_count : Nat
  deriving Repr, DecidableEq

/-- One iteration of the per-student loop: skip students with no posted
status; otherwise get_or_create on (student, course, date), updating
status/remarks/marked_by when the row exists (counted as updated) and
appending a fresh row otherwise (counted as created). -/
def markStudent (userId courseId : Nat) (d : String) (post : AttendancePost)
    (acc : MarkAcc) (s : Nat) : MarkAcc :=
  match post.statuses.lookup s with
  | none => acc
  | some st =>
    let rm := (post.remarks.lookup s).getD ""
    if acc.atts.any (fun a => attKey a s courseId d) then
      { atts := acc.atts.map (fun a =>
          if attKey a s courseId d then
            { a with status := st, remarks := rm, marked_by := userId }
          else a),
        updated_count := acc.updated_count + 1,
        created_count := acc.created_count }
    else
      { atts := acc.atts ++ [⟨s, courseId, d, st, rm, userId⟩],
        updated_count := acc.updated_count,
        created_count := acc.created_count + 1 }

/-- views.attendance_mark: admin/teacher only; a POST upserts an attendance row
for every enrolled student that got a status, then reports either the
warning "updated" message (when updated_count > 0) or the success
"created" message (when every touched row was new). -/
def attendance_mark (db : DB) (userId : Nat) (role : String)
    (post : Option AttendancePost) : DB × Resp :=
  if !(role == "admin" || role == "teacher") then
    (db, .redirect .dashboard [(.error, "Access denied.")])
  else match post with
  | some p =>
    match db.courses.find? (fun c => c.id == p.course) with
    | none => (db, .notFound)
    | some course =>
      let res := course.students.foldl (markStudent userId course.id p.date p)
        ⟨db.attendance, 0, 0⟩
      let db' : DB := { db with attendance := res.atts }
      if res.updated_count > 0 then
        (db', .redirect .attendance_list
          [(.warning, "Attendance updated for " ++ course.course_code ++ "! " ++
            toString res.updated_count ++ " records were updated, " ++
            toString res.created_count ++ " new records created.")])
      else
        (db', .redirect .attendance_list
          [(.success, "Attendance marked successfully for " ++ course.course_code ++
            "! " ++ toString res.created_count ++ " records created.")])
  | none => (db, .render "attendance_mark.html")

/-! ### Announcements (views.py) -/

/-- views.announcement_list: admins see every announcement; any other role sees
the active announcements whose target_roles is exactly "all" or contains
the viewer's role by the case-insensitive icontains test. -/
def announcement_list (db : DB) (userId : Nat) (role : String) : List AnnouncementRec :=
  if role == "admin" then db.announcements
  else db.announcements.filter (fun a =>
    (a.target_roles == "all" || icontains a.target_roles role) && a.is_active)

/-- views.announcement_create: admin/teacher only; a POST creates the
announcement from the raw request fields. -/
def announcement_create (db : DB) (userId : Nat) (role : String)
    (post : Option AnnouncementPost) : DB × Resp :=
  if !(role == "admin" || role == "teacher") then
    (db, .redirect .dashboard [(.error, "Access denied.")])
  else match post with
  | some p =>
    ({ db with announcements := db.announcements ++
        [⟨nextAnnouncementId db, p.title, p.content, userId,
          announcementTargetRoles p, p.is_active⟩] },
     .redirect .announcement_list [(.success, "Announcement created successfully!")])
  | none => (db, .render "announcement_form.html")

/-- views.announcement_edit: allowed to admins and to the original creator;
anyone else gets an error message and a redirect to the announcement list;
a POST overwrites title, content, target_roles and is_active. -/
def announcement_edit (db : DB) (userId : Nat) (role : String) (announcementId : Nat)
    (post : Option AnnouncementPost) : DB × Resp :=
  match db.announcements.find? (fun a => a.id == announcementId) with
  | none => (db, .notFound)
  | some ann =>
    if !(role == "admin") && ann.created_by != userId then
      (db, .redirect .announcement_list [(.error, "Access denied.")])
    else match post with
    | some p =>
      ({ db with announcements := db.announcements.map (fun a =>
          if a.id == announcementId then
            { a with title := p.title, content := p.content,
                     target_roles := announcementTargetRoles p,
                     is_active := p.is_active }
          else a) },
       .redirect .announcement_list [(.success, "Announcement updated successfully!")])
    | none => (db, .render "announcement_form.html")

/-- views.announcement_delete: allowed to admins and to the original creator;
anyone else gets an error message and a redirect to the announcement list;
otherwise the announcement is deleted (no confirmation step). -/
def announcement_delete (db : DB) (userId : Nat) (role : String)
    (announcementId : Nat) : DB × Resp :=
  match db.announcements.find? (fun a => a.id == announcementId) with
  | none => (db, .notFound)
  | some ann =>
    if !(role == "admin") && ann.created_by != userId then
      (db, .redirect .announcement_list [(.error, "Access denied.")])
    else
      ({ db with announcements := db.announcements.filter (fun a => !(a.id == announcementId)) },
       .redirect .announcement_list [(.success, "Announcement deleted successfully!")])

/-! ### Teacher dashboard aggregation (views.dashboard_teacher) -/

/-- Ids of the courses taught by the given teacher. -/
def teacherCourseIds (db : DB) (teacherId : Nat) : List Nat :=
  (db.courses.filter (fun c => c.teacher == teacherId)).map (·.id)

/-- Attendance.objects.filter(course__in=courses).count(). -/
def totalAttendanceRecords (db : DB) (teacherId : Nat) : Nat :=
  (db.attendance.filter (fun a => (teacherCourseIds db teacherId).contains a.course)).length

/-- Attendance.objects.filter(course__in=courses, status='present').count(). -/
def presentCount (db : DB) (teacherId : Nat) : Nat :=
  (db.attendance.filter (fun a =>
    (teacherCourseIds db teacherId).contains a.course && a.status == "present")).length

/-- round(q, 1): the rational rounded to one decimal place. -/
def roundTo1 (q : ℚ) : ℚ := (round (q * 10) : ℤ) / 10

/-- The dashboard's attendance_percentage:
round(present / total * 100, 1) when total > 0, else 0. -/
def attendance_percentage (db : DB) (teacherId : Nat) : ℚ :=
  let total := totalAttendanceRecords db teacherId
  let present := presentCount db teacherId
  if total > 0 then roundTo1 ((present : ℚ) / (total : ℚ) * 100) else 0

/-! ### The guarded actions, their dispatcher, and the access-control matrix -/

/-- The guarded operations of views.py (and the admin bulk action is handled
separately), each carrying its target id and request payload. -/
inductive Action where
  | userList
  | complianceList
  | courseCreate (post : Option CoursePost)
  | courseEdit (courseId : Nat) (post : Option CoursePost)
  | courseDelete (courseId : Nat) (isPost : Bool)
  | lessonCreate (courseId : Nat) (post : Option LessonPost)
  | lessonEdit (lessonId : Nat) (post : Option LessonPost)
  | lessonDelete (lessonId : Nat) (isPost : Bool)
  | assignmentCreate (courseId : Nat) (post : Option AssignmentPost)
  | submissionCreate (assignmentId : Nat) (post : Option SubmissionPost)
  | submissionGrade (submissionId : Nat) (post : Option GradePost)
  | attendanceMark (post : Option AttendancePost)
  | announcementCreate (post : Option AnnouncementPost)
  | announcementEdit (announcementId : Nat) (post : Option AnnouncementPost)
  | announcementDelete (announcementId : Nat)
  deriving Repr, DecidableEq

/-- Route an action to its handler. -/
def dispatch (db : DB) (userId : Nat) (role : String) (now : Nat) :
    Action → DB × Resp
  | .userList => user_list db userId role
  | .complianceList => compliance_list db userId role
  | .courseCreate post => course_create db userId role post
  | .courseEdit courseId post => course_edit db userId role courseId post
  | .courseDelete courseId isPost => course_delete db userId role courseId isPost
  | .lessonCreate courseId post => lesson_create db userId role courseId post
  | .lessonEdit lessonId post => lesson_edit db userId role lessonId post
  | .lessonDelete lessonId isPost => lesson_delete db userId role lessonId isPost
  | .assignmentCreate courseId post => assignment_create db userId role courseId post
  | .submissionCreate assignmentId post => submission_create db userId role assignmentId post
  | .submissionGrade submissionId post => submission_grade db userId role now submissionId post
  | .attendanceMark post => attendance_mark db userId role post
  | .announcementCreate post => announcement_create db userId role post
  | .announcementEdit announcementId post => announcement_edit db userId role announcementId post
  | .announcementDelete announcementId => announcement_delete db userId role announcementId

/-- The teacher of the course a lesson belongs to, if both exist. -/
def lessonCourseTeacher (db : DB) (lessonId : Nat) : Option Nat :=
  match db.lessons.find? (fun l => l.id == lessonId) with
  | none => none
  | some lesson => (db.courses.find? (fun c => c.id == lesson.course)).map (·.teacher)

/-- The teacher of a course, if it exists. -/
def courseTeacherOf (db : DB) (courseId : Nat) : Option Nat :=
  (db.courses.find? (fun c => c.id == courseId)).map (·.teacher)

/-- The creator of an announcement, if it exists. -/
def announcementCreator (db : DB) (announcementId : Nat) : Option Nat :=
  (db.announcements.find? (fun a => a.id == announcementId)).map (·.created_by)

/-- Modelled from the spec, section 4.1: the access-control matrix `can`.
Admin-only: user management and compliance reports; admin+teacher:
course/lesson/assignment create-edit-delete (teachers scoped to their own
courses), attendance marking, announcement creation, grading; student-only:
assignment submission; announcement edit/delete: admin or original creator. -/
def can (db : DB) (userId : Nat) (role : String) : Action → Bool
  | .userList => role == "admin"
  | .complianceList => role == "admin"
  | .courseCreate _ => role == "admin" || role == "teacher"
  | .courseEdit courseId _ =>
      role == "admin" ||
      (role == "teacher" && courseTeacherOf db courseId == some userId)
  | .courseDelete courseId _ =>
      role == "admin" ||
      (role == "teacher" && courseTeacherOf db courseId == some userId)
  | .lessonCreate _ _ => role == "admin" || role == "teacher"
  | .lessonEdit lessonId _ =>
      role == "admin" ||
      (role == "teacher" && lessonCourseTeacher db lessonId == some userId)
  | .lessonDelete lessonId _ =>
      role == "admin" ||
      (role == "teacher" && lessonCourseTeacher db lessonId == some userId)
  | .assignmentCreate _ _ => role == "admin" || role == "teacher"
  | .submissionCreate _ _ => role == "student"
  | .submissionGrade _ _ => role == "admin" || role == "teacher"
  | .attendanceMark _ => role == "admin" || role == "teacher"
  | .announcementCreate _ => role == "admin" || role == "teacher"
  | .announcementEdit announcementId _ =>
      role == "admin" || announcementCreator db announcementId == some userId
  | .announcementDelete announcementId =>
      role == "admin" || announcementCreator db announcementId == some userId

/-- The target entity an action addresses exists in the database (a missing id
is answered by a 404, which the claims treat separately from denials). -/
def actionTargetExists (db : DB) : Action → Prop
  | .courseEdit courseId _ => (courseTeacherOf db courseId).isSome
  | .courseDelete courseId _ => (courseTeacherOf db courseId).isSome
  | .lessonCreate courseId _ => (courseTeacherOf db courseId).isSome
  | .lessonEdit lessonId _ => (lessonCourseTeacher db lessonId).isSome
  | .lessonDelete lessonId _ => (lessonCourseTeacher db lessonId).isSome
  | .assignmentCreate courseId _ => (courseTeacherOf db courseId).isSome
  | .submissionCreate assignmentId _ =>
      (db.assignments.find? (fun a => a.id == assignmentId)).isSome
  | .submissionGrade submissionId _ =>
      (db.submissions.find? (fun s => s.id == submissionId)).isSome
  | .attendanceMark post =>
      ∀ p, post = some p → (db.courses.find? (fun c => c.id == p.course)).isSome
  | .announcementEdit announcementId _ => (announcementCreator db announcementId).isSome
  | .announcementDelete announcementId => (announcementCreator db announcementId).isSome
  | _ => True

/-- Does an action amount to re-grading a submission with status pending
through the grading form? (The one exposed way to leave the graded state.) -/
def setsStatusPending : Action → Bool
  | .submissionGrade _ (some p) => p.status == "pending"
  | _ => false

/-! ### Spec-side predicates (stated from the specification's words, to be
compared against the code's behaviour) -/

/-- Modelled from the spec: a redirect target is "the list view" when it is one
of the list pages. -/
def isListTarget : Target → Bool
  | .user_list => true
  | .course_list => true
  | .compliance_list => true
  | .feedback_list => true
  | .attendance_list => true
  | .announcement_list => true
  | _ => false

/-- Modelled from the spec: announcement visibility for a non-admin viewer as
claim C3 words it — the announcement is active and its target_roles equals
"all" or contains the viewer's role as a substring of the raw stored string. -/
def specVisible (a : AnnouncementRec) (role : String) : Bool :=
  a.is_active && (a.target_roles == "all" || strContains a.target_roles role)

/-- Number of submission rows for an (assignment, student) pair. -/
def submissionCountFor (db : DB) (assignmentId studentId : Nat) : Nat :=
  (db.submissions.filter (fun s =>
    s.assignment == assignmentId && s.student == studentId)).length

/-! ### Concrete example data (used by witnesses and counterexamples) -/

/-- A small populated database: teacher 1 owns course 10 (students 2 and 3),
assignment 1 on it, student 3 already submitted, one announcement targeted
at "STUDENT". -/
def exDb : DB :=
  { users := [⟨1, "tch", false⟩, ⟨2, "stu", false⟩, ⟨3, "stu2", false⟩,
              ⟨4, "adm", true⟩, ⟨5, "par", false⟩, ⟨6, "tch2", false⟩],
    profiles := [⟨1, "teacher"⟩, ⟨2, "student"⟩, ⟨3, "student"⟩,
                 ⟨4, "admin"⟩, ⟨5, "parent"⟩, ⟨6, "teacher"⟩],
    courses := [⟨10, "Math", "intro", 1, [2, 3], "CS101", true⟩],
    lessons := [⟨100, 10, "L1", "first", 0⟩],
    assignments := [⟨1, 10, "A1", "hw", 100, 1⟩],
    submissions := [⟨1, 1, 3, "a.txt", none, none, "pending", none, none⟩],
    announcements := [⟨1, "Exam", "soon", 1, "STUDENT", true⟩],
    attendance := [] }

/-- exDb with the one submission already graded. -/
def exDbGraded : DB :=
  { exDb with submissions :=
      [⟨1, 1, 3, "a.txt", some 85, some "good", "graded", some 1, some 7⟩] }

/-- exDb with 4 attendance rows on course 10: 3 present, 1 absent. -/
def exDbAtt : DB :=
  { exDb with attendance :=
      [⟨2, 10, "2026-10-01", "present", "", 1⟩,
       ⟨3, 10, "2026-10-01", "absent", "", 1⟩,
       ⟨2, 10, "2026-10-02", "present", "", 1⟩,
       ⟨3, 10, "2026-10-02", "present", "", 1⟩] }

/-! ### General list lemmas -/

theorem find_isSome_iff_filter_pos {α : Type} (l : List α) (p : α → Bool) :
    (l.find? p).isSome = true ↔ 0 < (l.filter p).length := by
  induction l with
  | nil => simp
  | cons x xs ih =>
    by_cases h : p x = true
    · simp [List.find?_cons, List.filter_cons, h]
    · simp only [List.find?_cons, List.filter_cons, h, if_neg]
      simpa [h] using ih

theorem filter_length_zero_iff {α : Type} (l : List α) (p : α → Bool) :
    (l.filter p).length = 0 ↔ ∀ a ∈ l, p a = false := by
  rw [List.length_eq_zero, List.filter_eq_nil_iff]
  constructor
  · intro h a ha
    simpa using h a ha
  · intro h a ha
    simp [h a ha]

theorem filter_pos_iff_exists {α : Type} (l : List α) (p : α → Bool) :
    0 < (l.filter p).length ↔ ∃ x ∈ l, p x = true := by
  induction l with
  | nil => simp
  | cons x xs ih =>
    by_cases h : p x = true
    · simp [List.filter_cons, h]
    · simp only [List.filter_cons, h, if_neg, Bool.false_eq_true, if_false]
      rw [ih]
      simp [h]

/-! ## Claim C1: submission uniqueness -/

/-- C1. For every assignment A and student S, submitting when a Submission for
(A, S) already exists fails with the already-submitted warning and a redirect
to the assignment detail page while writing nothing; a first submission
succeeds and creates exactly one row for (A, S). -/
theorem C1_submission_uniqueness (db : DB) (userId assignmentId : Nat)
    (asg : AssignmentRec)
    (hfind : db.assignments.find? (fun a => a.id == assignmentId) = some asg) :
    (0 < submissionCountFor db assignmentId userId →
      ∀ post, submission_create db userId "student" assignmentId post =
        (db, .redirect (.assignment_detail assignmentId)
          [(.warning, "You have already submitted this assignment.")])) ∧
    (submissionCountFor db assignmentId userId = 0 →
      ∀ p : SubmissionPost,
        (submission_create db userId "student" assignmentId (some p)).1.submissions =
          db.submissions ++
            [⟨nextSubmissionId db, assignmentId, userId, p.file,
              none, none, "pending", none, none⟩] ∧
        submissionCountFor
          (submission_create db userId "student" assignmentId (some p)).1
          assignmentId userId = 1 ∧
        (submission_create db userId "student" assignmentId (some p)).2 =
          .redirect (.assignment_detail assignmentId)
            [(.success, "Assignment submitted successfully!")]) := by
  have hid : asg.id = assignmentId := by
    have := List.find?_some hfind
    simpa using this
  subst hid
  constructor
  · intro hexists post
    have hmem : ∃ x ∈ db.submissions, x.assignment = asg.id ∧ x.student = userId := by
      obtain ⟨x, hx, hp⟩ := (filter_pos_iff_exists _ _).mp hexists
      exact ⟨x, hx, by simpa using hp⟩
    simp [submission_create, hfind, hmem]
  · intro hzero p
    have hall : ∀ s ∈ db.submissions,
        (s.assignment == asg.id && s.student == userId) = false :=
      (filter_length_zero_iff _ _).mp hzero
    have hne : ¬ ∃ x ∈ db.submissions, x.assignment = asg.id ∧ x.student = userId := by
      rintro ⟨x, hx, h1, h2⟩
      have := hall x hx
      simp [h1, h2] at this
    have hflt : (db.submissions.filter (fun s =>
        s.assignment == asg.id && s.student == userId)).length = 0 := hzero
    refine ⟨?_, ?_, ?_⟩
    · simp [submission_create, hfind, hne]
    · simp [submission_create, hfind, hne, submissionCountFor,
        List.filter_append, hflt]
    · simp [submission_create, hfind, hne]

/-- Witness for C1: in the example database student 3 has already submitted
assignment 1, and resubmitting changes nothing and warns. -/
theorem C1_submission_uniqueness_witness :
    submission_create exDb 3 "student" 1 (some ⟨"b.txt"⟩) =
      (exDb, .redirect (.assignment_detail 1)
        [(.warning, "You have already submitted this assignment.")]) :=
  (C1_submission_uniqueness exDb 3 1 ⟨1, 10, "A1", "hw", 100, 1⟩ (by decide)).1
    (by decide) (some ⟨"b.txt"⟩)

/-! ## Claim C3: announcement visibility -/

/-- Counterexample to C3 as stated: the example database holds an active
announcement with target_roles "STUDENT"; the code's icontains test is
case-insensitive, so a student sees it, yet "student" is not a substring
of the raw stored string "STUDENT" and the stored string is not "all". -/
theorem C3_announcement_visibility_counterexample :
    announcement_list exDb 2 "student" = [⟨1, "Exam", "soon", 1, "STUDENT", true⟩] ∧
    specVisible ⟨1, "Exam", "soon", 1, "STUDENT", true⟩ "student" = false := by
  constructor <;> rfl

/-- C3 (amended). For a non-admin viewer with role r the announcement list
contains exactly the active announcements whose target_roles equals "all"
or contains r as a case-insensitive substring (Django icontains) of the
stored string; an admin sees every announcement regardless of
target_roles or is_active. -/
theorem C3_announcement_visibility (db : DB) (userId : Nat) (role : String)
    (hrole : role ≠ "admin") :
    (∀ a : AnnouncementRec,
      a ∈ announcement_list db userId role ↔
        a ∈ db.announcements ∧ a.is_active = true ∧
          (a.target_roles = "all" ∨ icontains a.target_roles role = true)) ∧
    (∀ adminId, announcement_list db adminId "admin" = db.announcements) := by
  constructor
  · intro a
    have hb : (role == "admin") = false := by
      simpa using hrole
    simp only [announcement_list, hb, Bool.false_eq_true, if_false, List.mem_filter]
    constructor
    · rintro ⟨ha, hcond⟩
      refine ⟨ha, ?_, ?_⟩
      · exact (Bool.and_eq_true _ _ |>.mp hcond).2
      · have := (Bool.and_eq_true _ _ |>.mp hcond).1
        rcases Bool.or_eq_true _ _ |>.mp this with h | h
        · exact Or.inl (by simpa using h)
        · exact Or.inr h
    · rintro ⟨ha, hact, hcond⟩
      refine ⟨ha, ?_⟩
      rw [Bool.and_eq_true]
      refine ⟨?_, hact⟩
      rw [Bool.or_eq_true]
      rcases hcond with h | h
      · exact Or.inl (by simpa using h)
      · exact Or.inr h
  · intro adminId
    simp [announcement_list]

/-- Witness for C3: the student sees the "STUDENT"-targeted announcement and
the admin list is unfiltered. -/
theorem C3_announcement_visibility_witness :
    ((⟨1, "Exam", "soon", 1, "STUDENT", true⟩ : AnnouncementRec) ∈
        announcement_list exDb 2 "student" ↔
      (⟨1, "Exam", "soon", 1, "STUDENT", true⟩ : AnnouncementRec) ∈ exDb.announcements ∧
        (true : Bool) = true ∧
        ("STUDENT" = "all" ∨ icontains "STUDENT" "student" = true)) ∧
    announcement_list exDb 4 "admin" = exDb.announcements :=
  ⟨(C3_announcement_visibility exDb 2 "student" (by decide)).1 _,
   (C3_announcement_visibility exDb 2 "student" (by decide)).2 4⟩

/-! ## Claim C7: teacher dashboard attendance percentage -/

/-- C7. The dashboard attendance percentage is 0 when there are no attendance
records in the teacher's courses, and otherwise is present/total*100 rounded
to one decimal; on the example data with 3 present out of 4 records it is
exactly 75. -/
theorem C7_attendance_percentage (db : DB) (tid : Nat) :
    (totalAttendanceRecords db tid = 0 → attendance_percentage db tid = 0) ∧
    (0 < totalAttendanceRecords db tid →
      attendance_percentage db tid =
        roundTo1 ((presentCount db tid : ℚ) / (totalAttendanceRecords db tid : ℚ) * 100)) ∧
    attendance_percentage exDbAtt 1 = 75 := by
  refine ⟨?_, ?_, ?_⟩
  · intro h0
    simp [attendance_percentage, h0]
  · intro hpos
    simp [attendance_percentage, Nat.pos_iff_ne_zero.mp hpos]
  · have h1 : presentCount exDbAtt 1 = 3 := by decide
    have h2 : totalAttendanceRecords exDbAtt 1 = 4 := by decide
    simp only [attendance_percentage, h1, h2, roundTo1]
    norm_num

/-- Witness for C7: on the example data (4 records, 3 present) the positive
branch applies and yields the rounded ratio. -/
theorem C7_attendance_percentage_witness :
    0 < totalAttendanceRecords exDbAtt 1 ∧
    attendance_percentage exDbAtt 1 =
      roundTo1 ((presentCount exDbAtt 1 : ℚ) / (totalAttendanceRecords exDbAtt 1 : ℚ) * 100) :=
  ⟨by decide, (C7_attendance_percentage exDbAtt 1).2.1 (by decide)⟩

/-! ## Claim C8: lazy profile self-healing on the dashboard -/

/-- exDb with the profile table emptied (stale accounts with no profile). -/
def exDbNoProf : DB := { exDb with profiles := [] }

/-- C8. Visiting the dashboard with no profile creates exactly one profile,
with role admin for superusers and student otherwise, and redirects to the
matching role dashboard with an informational message; with an existing
profile the database is untouched. -/
theorem C8_profile_self_heal (db : DB) (u : UserRec) :
    (db.profiles.find? (fun pr => pr.user == u.id) = none →
      (dashboard_view db u).1.profiles =
        db.profiles ++ [⟨u.id, if u.is_superuser then "admin" else "student"⟩] ∧
      (dashboard_view db u).2 =
        .redirect (if u.is_superuser then .dashboard_admin else .dashboard_student)
          [(.info, "Profile created. Please update your settings.")]) ∧
    (∀ pr, db.profiles.find? (fun pr2 => pr2.user == u.id) = some pr →
      (dashboard_view db u).1 = db) := by
  constructor
  · intro hnone
    by_cases hs : u.is_superuser = true
    · constructor <;> simp [dashboard_view, hnone, hs]
    · rw [Bool.not_eq_true] at hs
      constructor <;> simp [dashboard_view, hnone, hs]
  · intro pr hfind
    simp only [dashboard_view, hfind]
    split_ifs <;> rfl

/-- Witness for C8: a superuser with no profile gets an admin profile created. -/
theorem C8_profile_self_heal_witness :
    (dashboard_view exDbNoProf ⟨7, "boss", true⟩).1.profiles =
      exDbNoProf.profiles ++ [⟨7, "admin"⟩] :=
  ((C8_profile_self_heal exDbNoProf ⟨7, "boss", true⟩).1 (by decide)).1

/-! ## Claim C10: public registration can never create an admin -/

theorem foldl_max_init_le {α : Type} (f : α → Nat) (l : List α) (i : Nat) :
    i ≤ l.foldl (fun m x => max m (f x)) i := by
  induction l generalizing i with
  | nil => exact Nat.le_refl i
  | cons x xs ih =>
    exact Nat.le_trans (Nat.le_max_left i (f x)) (ih (max i (f x)))

theorem foldl_max_ge {α : Type} (f : α → Nat) (l : List α) (i : Nat) (a : α)
    (ha : a ∈ l) : f a ≤ l.foldl (fun m x => max m (f x)) i := by
  induction l generalizing i with
  | nil => cases ha
  | cons x xs ih =>
    rcases List.mem_cons.mp ha with rfl | hmem
    · exact Nat.le_trans (Nat.le_max_right i (f a)) (foldl_max_init_le f xs (max i (f a)))
    · exact ih (max i (f x)) hmem

/-- Every existing user id is below the freshly assigned one. -/
theorem userId_lt_next (db : DB) (u : UserRec) (hu : u ∈ db.users) :
    u.id < nextUserId db :=
  Nat.lt_succ_of_le (foldl_max_ge (·.id) db.users 0 u hu)

/-- Every existing submission id is below the freshly assigned one. -/
theorem submissionId_lt_next (db : DB) (s : SubmissionRec) (hs : s ∈ db.submissions) :
    s.id < nextSubmissionId db :=
  Nat.lt_succ_of_le (foldl_max_ge (·.id) db.submissions 0 s hs)

/-- C10. A valid registration form stores the chosen role on the new user's
profile, and the role field's choices are exactly student, teacher and
parent — an account with role admin can never be created this way. -/
theorem C10_register_role (db : DB) (p : RegisterPost)
    (hvalid : userRegisterFormValid db p = true)
    (hint : ∀ pr ∈ db.profiles, ∃ u ∈ db.users, u.id = pr.user) :
    (register_view db (some p)).1.profiles = db.profiles ++ [⟨nextUserId db, p.role⟩] ∧
    p.role ∈ registerRoleChoices ∧ p.role ≠ "admin" := by
  have hrole : p.role ∈ registerRoleChoices := by
    have h := hvalid
    simp only [userRegisterFormValid, Bool.and_eq_true] at h
    have := h.2
    exact List.mem_of_elem_eq_true (by simpa [List.contains] using this)
  have hnadmin : p.role ≠ "admin" := by
    rcases List.mem_cons.mp hrole with h | h
    · rw [h]; decide
    rcases List.mem_cons.mp h with h | h
    · rw [h]; decide
    rcases List.mem_cons.mp h with h | h
    · rw [h]; decide
    · cases h
  have hfresh : ∀ pr ∈ db.profiles, (pr.user == nextUserId db) = false := by
    intro pr hpr
    obtain ⟨u, hu, hid⟩ := hint pr hpr
    have := userId_lt_next db u hu
    rw [hid] at this
    simp [Nat.ne_of_lt this, Ne.symm (Nat.ne_of_lt this)]
  have hany : (db.profiles.any (fun pr => pr.user == nextUserId db)) = false := by
    rw [Bool.eq_false_iff]
    intro h
    obtain ⟨pr, hpr, hb⟩ := List.any_eq_true.mp h
    rw [hfresh pr hpr] at hb
    cases hb
  refine ⟨?_, hrole, hnadmin⟩
  simp only [register_view, hvalid, if_true]
  simp [hany]

/-- Witness for C10: registering a teacher account on the example database. -/
theorem C10_register_role_witness :
    (register_view exDb
      (some ⟨"newu", "Ada", "Li", "a@b.c", "pw1", "pw1", "teacher"⟩)).1.profiles =
      exDb.profiles ++ [⟨nextUserId exDb, "teacher"⟩] ∧
    "teacher" ∈ registerRoleChoices ∧ "teacher" ≠ "admin" :=
  C10_register_role exDb ⟨"newu", "Ada", "Li", "a@b.c", "pw1", "pw1", "teacher"⟩
    (by decide) (by decide)

/-! ## Claim C2: attendance upsert machinery -/

/-- Number of attendance rows carrying a given (student, course, date) key. -/
def attCount (atts : List AttendanceRec) (s c : Nat) (d : String) : Nat :=
  atts.countP (fun a => attKey a s c d)

/-- The storage-level unique_together invariant on (student, course, date). -/
def attUnique (atts : List AttendanceRec) : Prop :=
  ∀ s c d, attCount atts s c d ≤ 1

/-- Filtering after a key-preserving map is mapping after filtering. -/
theorem filter_map_of_key {α : Type} (f : α → α) (p : α → Bool)
    (hp : ∀ a, p (f a) = p a) (l : List α) :
    (l.map f).filter p = (l.filter p).map f := by
  induction l with
  | nil => rfl
  | cons x xs ih =>
    by_cases h : p x = true
    · simp [List.filter_cons, hp, h, ih]
    · rw [Bool.not_eq_true] at h
      simp [List.filter_cons, hp, h, ih]

/-- A key-preserving map leaves every key count unchanged. -/
theorem countP_map_of_key {α : Type} (f : α → α) (p : α → Bool)
    (hp : ∀ a, p (f a) = p a) (l : List α) :
    (l.map f).countP p = l.countP p := by
  rw [List.countP_eq_length_filter, List.countP_eq_length_filter,
    filter_map_of_key f p hp l, List.length_map]

/-- The in-place update of markStudent touches no key field. -/
theorem attKey_update (a : AttendanceRec) (st rm : String) (u s' c' : Nat) (d' : String) :
    attKey { a with status := st, remarks := rm, marked_by := u } s' c' d' =
      attKey a s' c' d' := rfl

/-- The update function applied by the update branch of markStudent preserves
every key predicate. -/
theorem attKey_updFun (s cid : Nat) (d : String) (st rm : String) (u : Nat)
    (s' c' : Nat) (d' : String) (a : AttendanceRec) :
    attKey (if attKey a s cid d then { a with status := st, remarks := rm, marked_by := u }
            else a) s' c' d' = attKey a s' c' d' := by
  by_cases h : attKey a s cid d = true
  · rw [if_pos h, attKey_update]
  · rw [if_neg h]

/-- A student with no posted status is skipped. -/
theorem markStudent_none (u cid : Nat) (d : String) (p : AttendancePost)
    (acc : MarkAcc) (s : Nat) (h : p.statuses.lookup s = none) :
    markStudent u cid d p acc s = acc := by
  simp [markStudent, h]

/-- The update branch of markStudent preserves the count of every key. -/
theorem markStudent_count_update (u cid : Nat) (d : String) (p : AttendancePost)
    (acc : MarkAcc) (s : Nat) (st : String)
    (hst : p.statuses.lookup s = some st)
    (hany : acc.atts.any (fun a => attKey a s cid d) = true)
    (s' c' : Nat) (d' : String) :
    attCount (markStudent u cid d p acc s).atts s' c' d' =
      attCount acc.atts s' c' d' := by
  simp only [markStudent, hst, hany, if_pos]
  exact countP_map_of_key _ _ (fun a => attKey_updFun s cid d st _ u s' c' d' a) acc.atts

/-- Processing one student changes the count of no other key. -/
theorem markStudent_count_other (u cid : Nat) (d : String) (p : AttendancePost)
    (acc : MarkAcc) (s : Nat) (s' c' : Nat) (d' : String)
    (hne : ¬(s' = s ∧ c' = cid ∧ d' = d)) :
    attCount (markStudent u cid d p acc s).atts s' c' d' =
      attCount acc.atts s' c' d' := by
  cases hst : p.statuses.lookup s with
  | none => rw [markStudent_none u cid d p acc s hst]
  | some st =>
    by_cases hany : acc.atts.any (fun a => attKey a s cid d) = true
    · exact markStudent_count_update u cid d p acc s st hst hany s' c' d'
    · rw [Bool.not_eq_true] at hany
      simp only [markStudent, hst, hany, Bool.false_eq_true, if_false]
      unfold attCount
      rw [List.countP_append]
      have hkey : attKey ⟨s, cid, d, st, (p.remarks.lookup s).getD "", u⟩ s' c' d' = false := by
        by_contra hk
        rw [Bool.not_eq_false] at hk
        simp only [attKey, Bool.and_eq_true, beq_iff_eq] at hk
        exact hne ⟨hk.1.1.symm, hk.1.2.symm, hk.2.symm⟩
      simp [List.countP_cons, hkey]

/-- Processing a student never lowers a positive key count to zero. -/
theorem markStudent_count_pos (u cid : Nat) (d : String) (p : AttendancePost)
    (acc : MarkAcc) (x : Nat) (s' c' : Nat) (d' : String)
    (hpos : 0 < attCount acc.atts s' c' d') :
    0 < attCount (markStudent u cid d p acc x).atts s' c' d' := by
  cases hst : p.statuses.lookup x with
  | none => rw [markStudent_none u cid d p acc x hst]; exact hpos
  | some st =>
    by_cases hany : acc.atts.any (fun a => attKey a x cid d) = true
    · rw [markStudent_count_update u cid d p acc x st hst hany s' c' d']
      exact hpos
    · rw [Bool.not_eq_true] at hany
      simp only [markStudent, hst, hany, Bool.false_eq_true, if_false]
      unfold attCount
      rw [List.countP_append]
      exact Nat.lt_of_lt_of_le hpos (Nat.le_add_right _ _)

/-- Processing a student preserves the unique-key invariant. -/
theorem markStudent_unique (u cid : Nat) (d : String) (p : AttendancePost)
    (acc : MarkAcc) (s : Nat) (huniq : attUnique acc.atts) :
    attUnique (markStudent u cid d p acc s).atts := by
  intro s' c' d'
  cases hst : p.statuses.lookup s with
  | none => rw [markStudent_none u cid d p acc s hst]; exact huniq s' c' d'
  | some st =>
    by_cases hany : acc.atts.any (fun a => attKey a s cid d) = true
    · rw [markStudent_count_update u cid d p acc s st hst hany s' c' d']
      exact huniq s' c' d'
    · rw [Bool.not_eq_true] at hany
      simp only [markStudent, hst, hany, Bool.false_eq_true, if_false]
      unfold attCount
      rw [List.countP_append]
      by_cases hkey : attKey ⟨s, cid, d, st, (p.remarks.lookup s).getD "", u⟩ s' c' d' = true
      · have hks : s' = s ∧ c' = cid ∧ d' = d := by
          simp only [attKey, Bool.and_eq_true, beq_iff_eq] at hkey
          exact ⟨hkey.1.1.symm, hkey.1.2.symm, hkey.2.symm⟩
        obtain ⟨rfl, rfl, rfl⟩ := hks
        have hzero : acc.atts.countP (fun a => attKey a s' c' d') = 0 := by
          rw [List.countP_eq_zero]
          intro a ha
          have := List.any_eq_false.mp hany a ha
          simpa using this
        simp [hzero, List.countP_cons, hkey]
      · rw [Bool.not_eq_true] at hkey
        simpa [List.countP_cons, hkey] using huniq s' c' d'

/-- Upsert on an existing key: the rows carrying the key collapse to exactly
one row holding the posted values. -/
theorem markStudent_filter_self (u cid : Nat) (d : String) (p : AttendancePost)
    (acc : MarkAcc) (s : Nat) (st : String)
    (hst : p.statuses.lookup s = some st) (huniq : attUnique acc.atts) :
    (markStudent u cid d p acc s).atts.filter (fun a => attKey a s cid d) =
      [⟨s, cid, d, st, (p.remarks.lookup s).getD "", u⟩] := by
  by_cases hany : acc.atts.any (fun a => attKey a s cid d) = true
  · simp only [markStudent, hst, hany, if_pos]
    rw [filter_map_of_key _ _ (fun a => attKey_updFun s cid d st _ u s cid d a)]
    have hpos : 0 < acc.atts.countP (fun a => attKey a s cid d) := by
      rw [List.countP_pos_iff]
      obtain ⟨a, ha, hk⟩ := List.any_eq_true.mp hany
      exact ⟨a, ha, hk⟩
    have hle : acc.atts.countP (fun a => attKey a s cid d) ≤ 1 := huniq s cid d
    have hlen : (acc.atts.filter (fun a => attKey a s cid d)).length = 1 := by
      rw [← List.countP_eq_length_filter]
      omega
    obtain ⟨a₀, ha₀⟩ := List.length_eq_one.mp hlen
    have hmem : a₀ ∈ acc.atts.filter (fun a => attKey a s cid d) := by
      rw [ha₀]; exact List.mem_singleton.mpr rfl
    have hk₀ : attKey a₀ s cid d = true := (List.mem_filter.mp hmem).2
    rw [ha₀, List.map_cons, List.map_nil, if_pos hk₀]
    obtain ⟨as, ac, ad, ast, arm, amb⟩ := a₀
    simp only [attKey, Bool.and_eq_true, beq_iff_eq] at hk₀
    obtain ⟨⟨rfl, rfl⟩, rfl⟩ := hk₀
    rfl
  · rw [Bool.not_eq_true] at hany
    simp only [markStudent, hst, hany, Bool.false_eq_true, if_false]
    rw [List.filter_append]
    have hnil : acc.atts.filter (fun a => attKey a s cid d) = [] := by
      rw [List.filter_eq_nil_iff]
      intro a ha
      have := List.any_eq_false.mp hany a ha
      simpa using this
    rw [hnil, List.nil_append]
    have hkey : attKey ⟨s, cid, d, st, (p.remarks.lookup s).getD "", u⟩ s cid d = true := by
      simp [attKey]
    simp [List.filter_cons, hkey]

/-- Processing a different student leaves the rows of this key untouched. -/
theorem markStudent_filter_other (u cid : Nat) (d : String) (p : AttendancePost)
    (acc : MarkAcc) (x s : Nat) (c' : Nat) (d' : String) (hxs : x ≠ s) :
    (markStudent u cid d p acc x).atts.filter (fun a => attKey a s c' d') =
      acc.atts.filter (fun a => attKey a s c' d') := by
  cases hst : p.statuses.lookup x with
  | none => rw [markStudent_none u cid d p acc x hst]
  | some st =>
    by_cases hany : acc.atts.any (fun a => attKey a x cid d) = true
    · simp only [markStudent, hst, hany, if_pos]
      rw [filter_map_of_key _ _ (fun a => attKey_updFun x cid d st _ u s c' d' a)]
      have hid : ∀ a ∈ acc.atts.filter (fun a => attKey a s c' d'),
          (if attKey a x cid d then
            { a with status := st, remarks := (p.remarks.lookup x).getD "", marked_by := u }
           else a) = id a := by
        intro a ha
        have hk : attKey a s c' d' = true := (List.mem_filter.mp ha).2
        have hs : a.student = s := by
          simp only [attKey, Bool.and_eq_true, beq_iff_eq] at hk
          exact hk.1.1
        have hnk : ¬ attKey a x cid d = true := by
          intro hcon
          simp only [attKey, Bool.and_eq_true, beq_iff_eq] at hcon
          exact hxs (by rw [← hcon.1.1, hs])
        rw [if_neg hnk]
        rfl
      rw [List.map_congr_left hid, List.map_id]
    · rw [Bool.not_eq_true] at hany
      simp only [markStudent, hst, hany, Bool.false_eq_true, if_false]
      rw [List.filter_append]
      have hkey : attKey ⟨x, cid, d, st, (p.remarks.lookup x).getD "", u⟩ s c' d' = false := by
        by_contra hcon
        rw [Bool.not_eq_false] at hcon
        simp only [attKey, Bool.and_eq_true, beq_iff_eq] at hcon
        exact hxs hcon.1.1
      simp [List.filter_cons, hkey]

/-- The updated counter never decreases. -/
theorem markStudent_upd_mono (u cid : Nat) (d : String) (p : AttendancePost)
    (acc : MarkAcc) (x : Nat) :
    acc.updated_count ≤ (markStudent u cid d p acc x).updated_count := by
  cases hst : p.statuses.lookup x with
  | none => rw [markStudent_none u cid d p acc x hst]
  | some st =>
    by_cases hany : acc.atts.any (fun a => attKey a x cid d) = true
    · simp only [markStudent, hst, hany, if_pos]
      exact Nat.le_succ _
    · rw [Bool.not_eq_true] at hany
      simp [markStudent, hst, hany]

/-- The created counter never decreases. -/
theorem markStudent_created_mono (u cid : Nat) (d : String) (p : AttendancePost)
    (acc : MarkAcc) (x : Nat) :
    acc.created_count ≤ (markStudent u cid d p acc x).created_count := by
  cases hst : p.statuses.lookup x with
  | none => rw [markStudent_none u cid d p acc x hst]
  | some st =>
    by_cases hany : acc.atts.any (fun a => attKey a x cid d) = true
    · simp [markStudent, hst, hany]
    · rw [Bool.not_eq_true] at hany
      simp only [markStudent, hst, hany, Bool.false_eq_true, if_false]
      exact Nat.le_succ _

/-- Marking a student whose key already has a row takes the update branch and
counts one more update. -/
theorem markStudent_upd_incr (u cid : Nat) (d : String) (p : AttendancePost)
    (acc : MarkAcc) (s : Nat) (st : String)
    (hst : p.statuses.lookup s = some st)
    (hpos : 0 < attCount acc.atts s cid d) :
    (markStudent u cid d p acc s).updated_count = acc.updated_count + 1 := by
  have hany : acc.atts.any (fun a => attKey a s cid d) = true := by
    rw [List.any_eq_true]
    obtain ⟨a, ha, hk⟩ := List.countP_pos_iff.mp hpos
    exact ⟨a, ha, hk⟩
  simp [markStudent, hst, hany]

/-- Marking a student with no row for the key takes the create branch: it
appends the one fresh row and counts one more creation. -/
theorem markStudent_created_incr (u cid : Nat) (d : String) (p : AttendancePost)
    (acc : MarkAcc) (s : Nat) (st : String)
    (hst : p.statuses.lookup s = some st)
    (hzero : attCount acc.atts s cid d = 0) :
    (markStudent u cid d p acc s).created_count = acc.created_count + 1 ∧
    (markStudent u cid d p acc s).updated_count = acc.updated_count ∧
    (markStudent u cid d p acc s).atts =
      acc.atts ++ [⟨s, cid, d, st, (p.remarks.lookup s).getD "", u⟩] := by
  have hany : acc.atts.any (fun a => attKey a s cid d) = false := by
    rw [List.any_eq_false]
    intro a ha
    have := List.countP_eq_zero.mp hzero a ha
    simpa using this
  refine ⟨?_, ?_, ?_⟩ <;> simp [markStudent, hst, hany]

/-- The whole marking loop preserves the unique-key invariant. -/
theorem foldMark_unique (u cid : Nat) (d : String) (p : AttendancePost)
    (studs : List Nat) (acc : MarkAcc) (huniq : attUnique acc.atts) :
    attUnique (studs.foldl (markStudent u cid d p) acc).atts := by
  induction studs generalizing acc with
  | nil => exact huniq
  | cons x xs ih =>
    exact ih (markStudent u cid d p acc x) (markStudent_unique u cid d p acc x huniq)

/-- The marking loop never decreases the updated counter. -/
theorem foldMark_upd_mono (u cid : Nat) (d : String) (p : AttendancePost)
    (studs : List Nat) (acc : MarkAcc) :
    acc.updated_count ≤ (studs.foldl (markStudent u cid d p) acc).updated_count := by
  induction studs generalizing acc with
  | nil => exact Nat.le_refl _
  | cons x xs ih =>
    exact Nat.le_trans (markStudent_upd_mono u cid d p acc x)
      (ih (markStudent u cid d p acc x))

/-- The marking loop never decreases the created counter. -/
theorem foldMark_created_mono (u cid : Nat) (d : String) (p : AttendancePost)
    (studs : List Nat) (acc : MarkAcc) :
    acc.created_count ≤ (studs.foldl (markStudent u cid d p) acc).created_count := by
  induction studs generalizing acc with
  | nil => exact Nat.le_refl _
  | cons x xs ih =>
    exact Nat.le_trans (markStudent_created_mono u cid d p acc x)
      (ih (markStudent u cid d p acc x))

/-- The marking loop keeps a populated key populated. -/
theorem foldMark_count_pos (u cid : Nat) (d : String) (p : AttendancePost)
    (studs : List Nat) (acc : MarkAcc) (s' c' : Nat) (d' : String)
    (hpos : 0 < attCount acc.atts s' c' d') :
    0 < attCount (studs.foldl (markStudent u cid d p) acc).atts s' c' d' := by
  induction studs generalizing acc with
  | nil => exact hpos
  | cons x xs ih =>
    exact ih (markStudent u cid d p acc x)
      (markStudent_count_pos u cid d p acc x s' c' d' hpos)

/-- Keys of students outside the processed list are untouched by the loop. -/
theorem foldMark_filter_frame (u cid : Nat) (d : String) (p : AttendancePost)
    (studs : List Nat) (acc : MarkAcc) (s : Nat) (c' : Nat) (d' : String)
    (hs : s ∉ studs) :
    (studs.foldl (markStudent u cid d p) acc).atts.filter (fun a => attKey a s c' d') =
      acc.atts.filter (fun a => attKey a s c' d') := by
  induction studs generalizing acc with
  | nil => rfl
  | cons x xs ih =>
    have hxs : x ≠ s := fun h => hs (h ▸ List.mem_cons_self x xs)
    have hsx : s ∉ xs := fun h => hs (List.mem_cons_of_mem x h)
    rw [List.foldl_cons, ih (markStudent u cid d p acc x) hsx,
      markStudent_filter_other u cid d p acc x s c' d' hxs]

/-- After the loop, the rows for a marked student's key are exactly the one
row holding that student's posted status and remarks and the marker's id. -/
theorem foldMark_filter_self (u cid : Nat) (d : String) (p : AttendancePost)
    (studs : List Nat) (acc : MarkAcc) (s : Nat) (st : String)
    (huniq : attUnique acc.atts) (hs : s ∈ studs)
    (hst : p.statuses.lookup s = some st) :
    (studs.foldl (markStudent u cid d p) acc).atts.filter (fun a => attKey a s cid d) =
      [⟨s, cid, d, st, (p.remarks.lookup s).getD "", u⟩] := by
  induction studs generalizing acc with
  | nil => cases hs
  | cons x xs ih =>
    by_cases hmem : s ∈ xs
    · exact ih (markStudent u cid d p acc x) (markStudent_unique u cid d p acc x huniq) hmem
    · have hsx : s = x := by
        rcases List.mem_cons.mp hs with h | h
        · exact h
        · exact absurd h hmem
      subst hsx
      rw [List.foldl_cons,
        foldMark_filter_frame u cid d p xs (markStudent u cid d p acc s) s cid d hmem,
        markStudent_filter_self u cid d p acc s st hst huniq]

/-- If a marked student's key already has a row when the loop starts, the loop
reports at least one update. -/
theorem foldMark_upd_exists (u cid : Nat) (d : String) (p : AttendancePost)
    (studs : List Nat) (acc : MarkAcc) (s : Nat) (st : String)
    (hs : s ∈ studs) (hst : p.statuses.lookup s = some st)
    (hpos : 0 < attCount acc.atts s cid d) :
    acc.updated_count + 1 ≤ (studs.foldl (markStudent u cid d p) acc).updated_count := by
  induction studs generalizing acc with
  | nil => cases hs
  | cons x xs ih =>
    by_cases hmem : s ∈ xs
    · have h1 := ih (markStudent u cid d p acc x) hmem
        (markStudent_count_pos u cid d p acc x s cid d hpos)
      have h2 := markStudent_upd_mono u cid d p acc x
      rw [List.foldl_cons]
      omega
    · have hsx : s = x := by
        rcases List.mem_cons.mp hs with h | h
        · exact h
        · exact absurd h hmem
      subst hsx
      rw [List.foldl_cons]
      have h1 := markStudent_upd_incr u cid d p acc s st hst hpos
      have h2 := foldMark_upd_mono u cid d p xs (markStudent u cid d p acc s)
      omega

/-- If a marked student's key has no row when the loop starts, the loop
reports at least one creation. -/
theorem foldMark_created_exists (u cid : Nat) (d : String) (p : AttendancePost)
    (studs : List Nat) (acc : MarkAcc) (s : Nat) (st : String)
    (hs : s ∈ studs) (hst : p.statuses.lookup s = some st)
    (hzero : attCount acc.atts s cid d = 0) :
    acc.created_count + 1 ≤ (studs.foldl (markStudent u cid d p) acc).created_count := by
  induction studs generalizing acc with
  | nil => cases hs
  | cons x xs ih =>
    by_cases hx : x = s
    · subst hx
      rw [List.foldl_cons]
      have h1 := (markStudent_created_incr u cid d p acc x st hst hzero).1
      have h2 := foldMark_created_mono u cid d p xs (markStudent u cid d p acc x)
      omega
    · have hmem : s ∈ xs := by
        rcases List.mem_cons.mp hs with h | h
        · exact absurd h.symm hx
        · exact h
      have hz' : attCount (markStudent u cid d p acc x).atts s cid d = 0 := by
        rw [markStudent_count_other u cid d p acc x s cid d
          (fun hc => hx hc.1.symm)]
        exact hzero
      have h1 := ih (markStudent u cid d p acc x) hmem hz'
      have h2 := markStudent_created_mono u cid d p acc x
      rw [List.foldl_cons]
      omega

/-- When no marked student's key has a row yet and the student list has no
duplicates, the loop reports zero updates. -/
theorem foldMark_upd_zero (u cid : Nat) (d : String) (p : AttendancePost)
    (studs : List Nat) (acc : MarkAcc) (hnd : studs.Nodup)
    (hfresh : ∀ x ∈ studs, ∀ stx, p.statuses.lookup x = some stx →
      attCount acc.atts x cid d = 0) :
    (studs.foldl (markStudent u cid d p) acc).updated_count = acc.updated_count := by
  induction studs generalizing acc with
  | nil => rfl
  | cons x xs ih =>
    have hx : x ∉ xs := (List.nodup_cons.mp hnd).1
    have hndx : xs.Nodup := (List.nodup_cons.mp hnd).2
    rw [List.foldl_cons]
    cases hst : p.statuses.lookup x with
    | none =>
      rw [markStudent_none u cid d p acc x hst]
      exact ih acc hndx (fun y hy sty hsty =>
        hfresh y (List.mem_cons_of_mem x hy) sty hsty)
    | some st =>
      have hz := hfresh x (List.mem_cons_self x xs) st hst
      obtain ⟨hcr, hup, hatts⟩ := markStudent_created_incr u cid d p acc x st hst hz
      have hnext : ∀ y ∈ xs, ∀ sty, p.statuses.lookup y = some sty →
          attCount (markStudent u cid d p acc x).atts y cid d = 0 := by
        intro y hy sty hsty
        rw [hatts]
        unfold attCount
        rw [List.countP_append]
        have hyx : y ≠ x := fun h => hx (h ▸ hy)
        have hkey : attKey ⟨x, cid, d, st, (p.remarks.lookup x).getD "", u⟩ y cid d = false := by
          by_contra hcon
          rw [Bool.not_eq_false] at hcon
          simp only [attKey, Bool.and_eq_true, beq_iff_eq] at hcon
          exact hyx hcon.1.1.symm
        have hz' := hfresh y (List.mem_cons_of_mem x hy) sty hsty
        unfold attCount at hz'
        simp [List.countP_cons, hkey, hz']
      rw [ih (markStudent u cid d p acc x) hndx hnext, hup]

/-- C2. Attendance marking is an idempotent upsert keyed by (student, course,
date): marking a student twice leaves exactly one row, holding the second
call's status, remarks and marker; on a fresh table the first call reports
the all-created success message, and the second call reports the updated
warning message with a positive updated count. -/
theorem C2_attendance_upsert (db : DB) (u1 u2 : Nat) (r1 r2 : String)
    (c : CourseRec) (s : Nat) (p1 p2 : AttendancePost) (st1 st2 : String)
    (huniq : attUnique db.attendance)
    (hr1 : r1 = "admin" ∨ r1 = "teacher") (hr2 : r2 = "admin" ∨ r2 = "teacher")
    (hc1 : db.courses.find? (fun cc => cc.id == p1.course) = some c)
    (hc2 : p2.course = p1.course) (hdate : p2.date = p1.date)
    (hs : s ∈ c.students) (hnd : c.students.Nodup)
    (hst1 : p1.statuses.lookup s = some st1)
    (hst2 : p2.statuses.lookup s = some st2)
    (hfresh : ∀ x ∈ c.students, ∀ stx, p1.statuses.lookup x = some stx →
      attCount db.attendance x c.id p1.date = 0) :
    (attendance_mark (attendance_mark db u1 r1 (some p1)).1 u2 r2 (some p2)).1.attendance.filter
        (fun a => attKey a s c.id p2.date) =
      [⟨s, c.id, p2.date, st2, (p2.remarks.lookup s).getD "", u2⟩] ∧
    (∃ n, 0 < n ∧ (attendance_mark db u1 r1 (some p1)).2 =
      .redirect .attendance_list
        [(.success, "Attendance marked successfully for " ++ c.course_code ++ "! " ++
          toString n ++ " records created.")]) ∧
    (∃ (m k : Nat), 0 < m ∧
      (attendance_mark (attendance_mark db u1 r1 (some p1)).1 u2 r2 (some p2)).2 =
        .redirect .attendance_list
          [(.warning, "Attendance updated for " ++ c.course_code ++ "! " ++
            toString m ++ " records were updated, " ++ toString k ++
            " new records created.")]) := by
  have hb1 : (!(r1 == "admin" || r1 == "teacher")) = false := by
    rcases hr1 with h | h <;> subst h <;> rfl
  have hb2 : (!(r2 == "admin" || r2 == "teacher")) = false := by
    rcases hr2 with h | h <;> subst h <;> rfl
  have hupd1 : (c.students.foldl (markStudent u1 c.id p1.date p1)
      ⟨db.attendance, 0, 0⟩).updated_count = 0 :=
    foldMark_upd_zero u1 c.id p1.date p1 c.students ⟨db.attendance, 0, 0⟩ hnd hfresh
  have e1 : attendance_mark db u1 r1 (some p1) =
      ({ db with attendance := (c.students.foldl (markStudent u1 c.id p1.date p1)
          ⟨db.attendance, 0, 0⟩).atts },
       .redirect .attendance_list
        [(.success, "Attendance marked successfully for " ++ c.course_code ++ "! " ++
          toString (c.students.foldl (markStudent u1 c.id p1.date p1)
            ⟨db.attendance, 0, 0⟩).created_count ++ " records created.")]) := by
    simp only [attendance_mark, hb1, Bool.false_eq_true, if_false, hc1]
    simp [hupd1]
  have huniq1 : attUnique (c.students.foldl (markStudent u1 c.id p1.date p1)
      ⟨db.attendance, 0, 0⟩).atts :=
    foldMark_unique u1 c.id p1.date p1 c.students ⟨db.attendance, 0, 0⟩ huniq
  have filter1 : (c.students.foldl (markStudent u1 c.id p1.date p1)
        ⟨db.attendance, 0, 0⟩).atts.filter (fun a => attKey a s c.id p1.date) =
      [⟨s, c.id, p1.date, st1, (p1.remarks.lookup s).getD "", u1⟩] :=
    foldMark_filter_self u1 c.id p1.date p1 c.students ⟨db.attendance, 0, 0⟩ s st1
      huniq hs hst1
  have hpos1 : 0 < attCount (c.students.foldl (markStudent u1 c.id p1.date p1)
      ⟨db.attendance, 0, 0⟩).atts s c.id p2.date := by
    rw [hdate]
    unfold attCount
    rw [List.countP_eq_length_filter, filter1]
    simp
  have hfind2 : (({ db with attendance := (c.students.foldl
        (markStudent u1 c.id p1.date p1) ⟨db.attendance, 0, 0⟩).atts } : DB)).courses.find?
        (fun cc => cc.id == p2.course) = some c := by
    rw [hc2]
    exact hc1
  have hupd2 : 0 < (c.students.foldl (markStudent u2 c.id p2.date p2)
      ⟨(c.students.foldl (markStudent u1 c.id p1.date p1)
        ⟨db.attendance, 0, 0⟩).atts, 0, 0⟩).updated_count :=
    foldMark_upd_exists u2 c.id p2.date p2 c.students
      ⟨(c.students.foldl (markStudent u1 c.id p1.date p1)
        ⟨db.attendance, 0, 0⟩).atts, 0, 0⟩ s st2 hs hst2 hpos1
  have e2 : attendance_mark ({ db with attendance := (c.students.foldl
        (markStudent u1 c.id p1.date p1) ⟨db.attendance, 0, 0⟩).atts }) u2 r2 (some p2) =
      ({ db with attendance := (c.students.foldl (markStudent u2 c.id p2.date p2)
          ⟨(c.students.foldl (markStudent u1 c.id p1.date p1)
            ⟨db.attendance, 0, 0⟩).atts, 0, 0⟩).atts },
       .redirect .attendance_list
        [(.warning, "Attendance updated for " ++ c.course_code ++ "! " ++
          toString (c.students.foldl (markStudent u2 c.id p2.date p2)
            ⟨(c.students.foldl (markStudent u1 c.id p1.date p1)
              ⟨db.attendance, 0, 0⟩).atts, 0, 0⟩).updated_count ++
          " records were updated, " ++
          toString (c.students.foldl (markStudent u2 c.id p2.date p2)
            ⟨(c.students.foldl (markStudent u1 c.id p1.date p1)
              ⟨db.attendance, 0, 0⟩).atts, 0, 0⟩).created_count ++
          " new records created.")]) := by
    simp only [attendance_mark, hb2, Bool.false_eq_true, if_false, hfind2]
    simp [hupd2]
  have filter2 : (c.students.foldl (markStudent u2 c.id p2.date p2)
        ⟨(c.students.foldl (markStudent u1 c.id p1.date p1)
          ⟨db.attendance, 0, 0⟩).atts, 0, 0⟩).atts.filter
        (fun a => attKey a s c.id p2.date) =
      [⟨s, c.id, p2.date, st2, (p2.remarks.lookup s).getD "", u2⟩] :=
    foldMark_filter_self u2 c.id p2.date p2 c.students _ s st2 huniq1 hs hst2
  refine ⟨?_, ?_, ?_⟩
  · rw [e1]
    show (attendance_mark _ u2 r2 (some p2)).1.attendance.filter _ = _
    rw [e2]
    exact filter2
  · refine ⟨(c.students.foldl (markStudent u1 c.id p1.date p1)
      ⟨db.attendance, 0, 0⟩).created_count, ?_, ?_⟩
    · have := foldMark_created_exists u1 c.id p1.date p1 c.students
        ⟨db.attendance, 0, 0⟩ s st1 hs hst1 (hfresh s hs st1 hst1)
      omega
    · rw [e1]
  · refine ⟨(c.students.foldl (markStudent u2 c.id p2.date p2)
      ⟨(c.students.foldl (markStudent u1 c.id p1.date p1)
        ⟨db.attendance, 0, 0⟩).atts, 0, 0⟩).updated_count,
      (c.students.foldl (markStudent u2 c.id p2.date p2)
        ⟨(c.students.foldl (markStudent u1 c.id p1.date p1)
          ⟨db.attendance, 0, 0⟩).atts, 0, 0⟩).created_count, hupd2, ?_⟩
    rw [e1]
    show (attendance_mark _ u2 r2 (some p2)).2 = _
    rw [e2]

/-- Witness for C2: teacher 1 marks student 2 present on course 10, then admin
4 re-marks the same student late with a remark; exactly one row remains and
it holds the second call's values. -/
theorem C2_attendance_upsert_witness :
    (attendance_mark
      (attendance_mark exDb 1 "teacher"
        (some ⟨10, "2026-10-01", [(2, "present"), (3, "absent")], []⟩)).1
      4 "admin" (some ⟨10, "2026-10-01", [(2, "late")], [(2, "sick")]⟩)).1.attendance.filter
        (fun a => attKey a 2 10 "2026-10-01") =
      [⟨2, 10, "2026-10-01", "late", "sick", 4⟩] :=
  (C2_attendance_upsert exDb 1 4 "teacher" "admin"
    ⟨10, "Math", "intro", 1, [2, 3], "CS101", true⟩ 2
    ⟨10, "2026-10-01", [(2, "present"), (3, "absent")], []⟩
    ⟨10, "2026-10-01", [(2, "late")], [(2, "sick")]⟩ "present" "late"
    (fun s c d => Nat.zero_le 1) (Or.inr rfl) (Or.inl rfl)
    (by decide) rfl rfl (by decide) (by decide) rfl rfl
    (fun x hx stx hstx => rfl)).1

/-! ## Claim C4: teacher scoping on course and lesson edit/delete -/

/-- Counterexample to C4 as stated: teacher 6 does not own course 10, and
editing its lesson 100 is denied with no change — but the redirect goes to
the course's detail page, which is not a list view. (There is also no
assignment edit/delete handler at all in views.py.) -/
theorem C4_teacher_scoping_counterexample :
    (lesson_edit exDb 6 "teacher" 100 (some ⟨10, "L1x", "d", 0⟩)).1 = exDb ∧
    (lesson_edit exDb 6 "teacher" 100 (some ⟨10, "L1x", "d", 0⟩)).2 =
      .redirect (.course_detail 10)
        [(.error, "You can only edit lessons from your own courses.")] ∧
    isListTarget (.course_detail 10) = false := by
  refine ⟨rfl, rfl, rfl⟩

/-- C4 (amended). A teacher editing or deleting a course they do not own is
denied with an error message and a redirect to the course list; editing or
deleting a lesson of a course they do not own is denied with an error
message and a redirect to that course's detail page; in every case nothing
is persisted. (views.py has no teacher-facing assignment edit/delete
handler.) -/
theorem C4_teacher_scoping (db : DB) (u cid lid : Nat) (c : CourseRec) (l : LessonRec)
    (hc : db.courses.find? (fun x => x.id == cid) = some c)
    (hct : c.teacher ≠ u)
    (hl : db.lessons.find? (fun x => x.id == lid) = some l)
    (hlt : (db.courses.find? (fun x => x.id == l.course)).map (·.teacher) ≠ some u) :
    (∀ post, course_edit db u "teacher" cid post =
      (db, .redirect .course_list [(.error, "You can only edit your own courses.")])) ∧
    (∀ isPost, course_delete db u "teacher" cid isPost =
      (db, .redirect .course_list [(.error, "You can only delete your own courses.")])) ∧
    (∀ post, lesson_edit db u "teacher" lid post =
      (db, .redirect (.course_detail l.course)
        [(.error, "You can only edit lessons from your own courses.")])) ∧
    (∀ isPost, lesson_delete db u "teacher" lid isPost =
      (db, .redirect (.course_detail l.course)
        [(.error, "You can only delete lessons from your own courses.")])) := by
  have hbt : (c.teacher != u) = true := by
    simpa using hct
  have hbl : (((db.courses.find? (fun x => x.id == l.course)).map (·.teacher)) !=
      some u) = true := by
    simpa using hlt
  refine ⟨?_, ?_, ?_, ?_⟩
  · intro post
    simp [course_edit, hc, hbt]
  · intro isPost
    simp [course_delete, hc, hbt]
  · intro post
    simp [lesson_edit, hl, hbl]
  · intro isPost
    simp [lesson_delete, hl, hbl]

/-- Witness for C4: teacher 6 is denied on course 10 and on its lesson 100. -/
theorem C4_teacher_scoping_witness :
    course_edit exDb 6 "teacher" 10 none =
      (exDb, .redirect .course_list [(.error, "You can only edit your own courses.")]) ∧
    lesson_delete exDb 6 "teacher" 100 true =
      (exDb, .redirect (.course_detail 10)
        [(.error, "You can only delete lessons from your own courses.")]) :=
  ⟨(C4_teacher_scoping exDb 6 10 100 ⟨10, "Math", "intro", 1, [2, 3], "CS101", true⟩
      ⟨100, 10, "L1", "first", 0⟩ (by decide) (by decide) (by decide) (by decide)).1 none,
   (C4_teacher_scoping exDb 6 10 100 ⟨10, "Math", "intro", 1, [2, 3], "CS101", true⟩
      ⟨100, 10, "L1", "first", 0⟩ (by decide) (by decide) (by decide) (by decide)).2.2.2 true⟩

/-! ## Claim C6: the graded state and what can leave it -/

theorem user_list_state (db : DB) (u : Nat) (role : String) :
    (user_list db u role).1 = db := by
  unfold user_list
  split_ifs <;> rfl

theorem compliance_list_state (db : DB) (u : Nat) (role : String) :
    (compliance_list db u role).1 = db := by
  unfold compliance_list
  split_ifs <;> rfl

theorem course_create_subs (db : DB) (u : Nat) (role : String) (post : Option CoursePost) :
    (course_create db u role post).1.submissions = db.submissions := by
  unfold course_create
  repeat' split
  all_goals rfl

theorem course_edit_subs (db : DB) (u : Nat) (role : String) (cid : Nat)
    (post : Option CoursePost) :
    (course_edit db u role cid post).1.submissions = db.submissions := by
  unfold course_edit
  repeat' split
  all_goals rfl

theorem lesson_create_subs (db : DB) (u : Nat) (role : String) (cid : Nat)
    (post : Option LessonPost) :
    (lesson_create db u role cid post).1.submissions = db.submissions := by
  unfold lesson_create
  repeat' split
  all_goals rfl

theorem lesson_edit_subs (db : DB) (u : Nat) (role : String) (lid : Nat)
    (post : Option LessonPost) :
    (lesson_edit db u role lid post).1.submissions = db.submissions := by
  unfold lesson_edit
  repeat' split
  all_goals rfl

theorem lesson_delete_subs (db : DB) (u : Nat) (role : String) (lid : Nat)
    (isPost : Bool) :
    (lesson_delete db u role lid isPost).1.submissions = db.submissions := by
  unfold lesson_delete
  repeat' split
  all_goals rfl

theorem assignment_create_subs (db : DB) (u : Nat) (role : String) (cid : Nat)
    (post : Option AssignmentPost) :
    (assignment_create db u role cid post).1.submissions = db.submissions := by
  unfold assignment_create
  repeat' split
  all_goals rfl

theorem attendance_mark_subs (db : DB) (u : Nat) (role : String)
    (post : Option AttendancePost) :
    (attendance_mark db u role post).1.submissions = db.submissions := by
  unfold attendance_mark
  repeat' split
  all_goals try rfl
  all_goals dsimp only
  all_goals split <;> rfl

theorem announcement_create_subs (db : DB) (u : Nat) (role : String)
    (post : Option AnnouncementPost) :
    (announcement_create db u role post).1.submissions = db.submissions := by
  unfold announcement_create
  repeat' split
  all_goals rfl

theorem announcement_edit_subs (db : DB) (u : Nat) (role : String) (aid : Nat)
    (post : Option AnnouncementPost) :
    (announcement_edit db u role aid post).1.submissions = db.submissions := by
  unfold announcement_edit
  repeat' split
  all_goals rfl

theorem announcement_delete_subs (db : DB) (u : Nat) (role : String) (aid : Nat) :
    (announcement_delete db u role aid).1.submissions = db.submissions := by
  unfold announcement_delete
  repeat' split
  all_goals rfl

/-- Course deletion cascades can only remove submission rows, never alter one. -/
theorem course_delete_subs_mem (db : DB) (u : Nat) (role : String) (cid : Nat)
    (isPost : Bool) :
    ∀ s' ∈ (course_delete db u role cid isPost).1.submissions, s' ∈ db.submissions := by
  intro s' hs'
  unfold course_delete at hs'
  revert hs'
  repeat' split
  all_goals intro hs'
  all_goals first
    | exact hs'
    | exact List.mem_of_mem_filter hs'

/-- submission_create either leaves the table alone or appends one fresh row. -/
theorem submission_create_subs (db : DB) (u : Nat) (role : String) (aid : Nat)
    (post : Option SubmissionPost) :
    (submission_create db u role aid post).1.submissions = db.submissions ∨
    ∃ p asg, post = some p ∧
      (submission_create db u role aid post).1.submissions =
        db.submissions ++ [⟨nextSubmissionId db, asg, u, p.file,
          none, none, "pending", none, none⟩] := by
  unfold submission_create
  repeat' split
  all_goals first
    | exact Or.inl rfl
    | refine Or.inr ⟨_, _, rfl, rfl⟩

/-- submission_grade either leaves the table alone or rewrites the target row
with the posted fields and the grading stamps. -/
theorem submission_grade_subs (db : DB) (u : Nat) (role : String) (now sid : Nat)
    (post : Option GradePost) :
    (submission_grade db u role now sid post).1.submissions = db.submissions ∨
    ∃ p, post = some p ∧ gradingFormValid p = true ∧
      (submission_grade db u role now sid post).1.submissions =
        db.submissions.map (fun s =>
          if s.id == sid then
            { s with marks_obtained := p.marks_obtained, feedback := p.feedback,
                     status := p.status, graded_by := some u, graded_at := some now }
          else s) := by
  unfold submission_grade
  repeat' split
  all_goals first
    | exact Or.inl rfl
    | refine Or.inr ⟨_, rfl, by assumption, rfl⟩

/-- Counterexample to C6 as stated: the grading form exposes status as an
editable choice, and re-grading a graded submission with status pending is
accepted — the graded state is left through an exposed handler. -/
theorem C6_graded_terminal_counterexample :
    (exDbGraded.submissions.get ⟨0, by decide⟩).status = "graded" ∧
    gradingFormValid ⟨none, none, "pending"⟩ = true ∧
    (submission_grade exDbGraded 1 "teacher" 9 1
        (some ⟨none, none, "pending"⟩)).1.submissions =
      [⟨1, 1, 3, "a.txt", none, none, "pending", some 1, some 9⟩] := by
  refine ⟨rfl, rfl, rfl⟩

/-- C6 (amended). The only submission statuses are pending and graded, and the
only exposed operation that moves a submission out of the graded state is
submission_grade itself when the grading form posts status pending (the
status field is editable on GradingForm): every other guarded action, and
the admin bulk mark_graded action, keeps a graded submission graded. -/
theorem C6_graded_terminal (db : DB) (u : Nat) (role : String) (now : Nat)
    (act : Action) (i : Nat)
    (hex : ∃ s ∈ db.submissions, s.id = i)
    (hgr : ∀ s ∈ db.submissions, s.id = i → s.status = "graded")
    (hact : setsStatusPending act = false) :
    (∀ s' ∈ (dispatch db u role now act).1.submissions, s'.id = i → s'.status = "graded") ∧
    (∀ sel, ∀ s' ∈ mark_graded db.submissions sel, s'.id = i → s'.status = "graded") := by
  constructor
  · cases act with
    | userList =>
      intro s' hs'
      rw [dispatch, user_list_state] at hs'
      exact hgr s' hs'
    | complianceList =>
      intro s' hs'
      rw [dispatch, compliance_list_state] at hs'
      exact hgr s' hs'
    | courseCreate post =>
      intro s' hs'
      rw [dispatch, course_create_subs] at hs'
      exact hgr s' hs'
    | courseEdit cid post =>
      intro s' hs'
      rw [dispatch, course_edit_subs] at hs'
      exact hgr s' hs'
    | courseDelete cid isPost =>
      intro s' hs'
      rw [dispatch] at hs'
      exact hgr s' (course_delete_subs_mem db u role cid isPost s' hs')
    | lessonCreate cid post =>
      intro s' hs'
      rw [dispatch, lesson_create_subs] at hs'
      exact hgr s' hs'
    | lessonEdit lid post =>
      intro s' hs'
      rw [dispatch, lesson_edit_subs] at hs'
      exact hgr s' hs'
    | lessonDelete lid isPost =>
      intro s' hs'
      rw [dispatch, lesson_delete_subs] at hs'
      exact hgr s' hs'
    | assignmentCreate cid post =>
      intro s' hs'
      rw [dispatch, assignment_create_subs] at hs'
      exact hgr s' hs'
    | submissionCreate aid post =>
      intro s' hs'
      rw [dispatch] at hs'
      rcases submission_create_subs db u role aid post with h | ⟨p, asg, hp, h⟩
      · rw [h] at hs'
        exact hgr s' hs'
      · rw [h] at hs'
        intro hid
        rcases List.mem_append.mp hs' with hmem | hmem
        · exact hgr s' hmem hid
        · exfalso
          obtain ⟨s₀, hs₀, hid₀⟩ := hex
          have hlt := submissionId_lt_next db s₀ hs₀
          have : s' = ⟨nextSubmissionId db, asg, u, p.file,
              none, none, "pending", none, none⟩ := List.mem_singleton.mp hmem
          rw [this] at hid
          simp only at hid
          omega
    | submissionGrade sid post =>
      intro s' hs' hid
      rcases submission_grade_subs db u role now sid post with h | ⟨p, hp, hvalid, h⟩
      · rw [dispatch, h] at hs'
        exact hgr s' hs' hid
      · subst hp
        have hnp : p.status ≠ "pending" := by
          simp only [setsStatusPending] at hact
          simpa using hact
        rw [dispatch, h] at hs'
        obtain ⟨s₀, hs₀, rfl⟩ := List.mem_map.mp hs'
        by_cases hsel : (s₀.id == sid) = true
        · rw [if_pos hsel] at hid ⊢
          simp only
          have hv : p.status = "pending" ∨ p.status = "graded" := by
            simpa [gradingFormValid, submissionStatusChoices] using hvalid
          rcases hv with h | h
          · exact absurd h hnp
          · exact h
        · rw [if_neg hsel] at hid ⊢
          exact hgr s₀ hs₀ hid
    | attendanceMark post =>
      intro s' hs'
      rw [dispatch, attendance_mark_subs] at hs'
      exact hgr s' hs'
    | announcementCreate post =>
      intro s' hs'
      rw [dispatch, announcement_create_subs] at hs'
      exact hgr s' hs'
    | announcementEdit aid post =>
      intro s' hs'
      rw [dispatch, announcement_edit_subs] at hs'
      exact hgr s' hs'
    | announcementDelete aid =>
      intro s' hs'
      rw [dispatch, announcement_delete_subs] at hs'
      exact hgr s' hs'
  · intro sel s' hs' hid
    obtain ⟨s₀, hs₀, rfl⟩ := List.mem_map.mp hs'
    by_cases hsel : sel.contains s₀.id = true
    · rw [if_pos hsel]
    · rw [if_neg hsel] at hid ⊢
      exact hgr s₀ hs₀ hid

/-- Witness for C6: with submission 1 graded in the example database, deleting
an announcement leaves it graded, and so does the bulk action. -/
theorem C6_graded_terminal_witness :
    (∀ s' ∈ (dispatch exDbGraded 4 "admin" 9 (.announcementDelete 1)).1.submissions,
      s'.id = 1 → s'.status = "graded") ∧
    (∀ s' ∈ mark_graded exDbGraded.submissions [1], s'.id = 1 → s'.status = "graded") :=
  ⟨(C6_graded_terminal exDbGraded 4 "admin" 9 (.announcementDelete 1) 1
      ⟨⟨1, 1, 3, "a.txt", some 85, some "good", "graded", some 1, some 7⟩,
        by decide, rfl⟩
      (by decide) rfl).1,
   (C6_graded_terminal exDbGraded 4 "admin" 9 (.announcementDelete 1) 1
      ⟨⟨1, 1, 3, "a.txt", some 85, some "good", "graded", some 1, some 7⟩,
        by decide, rfl⟩
      (by decide) rfl).2 [1]⟩

/-! ## Claim C9: denied actions mutate nothing and redirect with a message -/

/-- C9. For every guarded action denied by the access-control matrix `can`
(with the action's target present, so that the separate 404 path does not
apply), the dispatcher leaves the database untouched and answers with a
redirect carrying a human-readable flash message — never a crash. -/
theorem C9_denied_no_mutation (db : DB) (u : Nat) (role : String) (now : Nat)
    (act : Action) (htarget : actionTargetExists db act)
    (hcan : can db u role act = false) :
    ∃ t lvl m, dispatch db u role now act = (db, .redirect t [(lvl, m)]) := by
  cases act with
  | userList =>
    simp only [can] at hcan
    have hne : role ≠ "admin" := by simpa using hcan
    exact ⟨.dashboard, .error, "Access denied.", by simp [dispatch, user_list, hne]⟩
  | complianceList =>
    simp only [can] at hcan
    have hne : role ≠ "admin" := by simpa using hcan
    exact ⟨.dashboard, .error, "Access denied.", by simp [dispatch, compliance_list, hne]⟩
  | courseCreate post =>
    simp only [can] at hcan
    obtain ⟨h1, h2⟩ : role ≠ "admin" ∧ role ≠ "teacher" := by simpa using hcan
    exact ⟨.dashboard, .error, "Access denied.", by simp [dispatch, course_create, h1, h2]⟩
  | courseEdit cid post =>
    simp only [can] at hcan
    cases hadm : (role == "admin") with
    | true => rw [hadm] at hcan; simp at hcan
    | false =>
      rw [hadm] at hcan
      have hna : role ≠ "admin" := by simpa using hadm
      cases hteach : (role == "teacher") with
      | false =>
        have hnt : role ≠ "teacher" := by simpa using hteach
        exact ⟨.dashboard, .error, "Access denied.",
          by simp [dispatch, course_edit, hna, hnt]⟩
      | true =>
        rw [hteach] at hcan
        have hown : (courseTeacherOf db cid == some u) = false := by simpa using hcan
        obtain ⟨c, hcf⟩ : ∃ c, db.courses.find? (fun x => x.id == cid) = some c := by
          simp only [actionTargetExists] at htarget
          unfold courseTeacherOf at htarget
          cases hcf : db.courses.find? (fun x => x.id == cid) with
          | none => rw [hcf] at htarget; simp at htarget
          | some c => exact ⟨c, rfl⟩
        have hct : c.teacher ≠ u := by
          unfold courseTeacherOf at hown
          rw [hcf] at hown
          simpa using hown
        have hrt : role = "teacher" := by simpa using hteach
        exact ⟨.course_list, .error, "You can only edit your own courses.",
          by simp [dispatch, course_edit, hrt, hcf, hct]⟩
  | courseDelete cid isPost =>
    simp only [can] at hcan
    cases hadm : (role == "admin") with
    | true => rw [hadm] at hcan; simp at hcan
    | false =>
      rw [hadm] at hcan
      have hna : role ≠ "admin" := by simpa using hadm
      cases hteach : (role == "teacher") with
      | false =>
        have hnt : role ≠ "teacher" := by simpa using hteach
        exact ⟨.dashboard, .error, "Access denied.",
          by simp [dispatch, course_delete, hna, hnt]⟩
      | true =>
        rw [hteach] at hcan
        have hown : (courseTeacherOf db cid == some u) = false := by simpa using hcan
        obtain ⟨c, hcf⟩ : ∃ c, db.courses.find? (fun x => x.id == cid) = some c := by
          simp only [actionTargetExists] at htarget
          unfold courseTeacherOf at htarget
          cases hcf : db.courses.find? (fun x => x.id == cid) with
          | none => rw [hcf] at htarget; simp at htarget
          | some c => exact ⟨c, rfl⟩
        have hct : c.teacher ≠ u := by
          unfold courseTeacherOf at hown
          rw [hcf] at hown
          simpa using hown
        have hrt : role = "teacher" := by simpa using hteach
        exact ⟨.course_list, .error, "You can only delete your own courses.",
          by simp [dispatch, course_delete, hrt, hcf, hct]⟩
  | lessonCreate cid post =>
    simp only [can] at hcan
    obtain ⟨h1, h2⟩ : role ≠ "admin" ∧ role ≠ "teacher" := by simpa using hcan
    exact ⟨.dashboard, .error, "Access denied.", by simp [dispatch, lesson_create, h1, h2]⟩
  | lessonEdit lid post =>
    simp only [can] at hcan
    cases hadm : (role == "admin") with
    | true => rw [hadm] at hcan; simp at hcan
    | false =>
      rw [hadm] at hcan
      have hna : role ≠ "admin" := by simpa using hadm
      cases hteach : (role == "teacher") with
      | false =>
        have hnt : role ≠ "teacher" := by simpa using hteach
        exact ⟨.dashboard, .error, "Access denied.",
          by simp [dispatch, lesson_edit, hna, hnt]⟩
      | true =>
        rw [hteach] at hcan
        have hown : (lessonCourseTeacher db lid == some u) = false := by simpa using hcan
        obtain ⟨l, hlf⟩ : ∃ l, db.lessons.find? (fun x => x.id == lid) = some l := by
          simp only [actionTargetExists] at htarget
          unfold lessonCourseTeacher at htarget
          cases hlf : db.lessons.find? (fun x => x.id == lid) with
          | none => rw [hlf] at htarget; simp at htarget
          | some l => exact ⟨l, rfl⟩
        have hct : ((db.courses.find? (fun c => c.id == l.course)).map (·.teacher)) ≠ some u := by
          unfold lessonCourseTeacher at hown
          rw [hlf] at hown
          simpa using hown
        have hrt : role = "teacher" := by simpa using hteach
        exact ⟨.course_detail l.course, .error,
          "You can only edit lessons from your own courses.",
          by simp [dispatch, lesson_edit, hrt, hlf, hct]⟩
  | lessonDelete lid isPost =>
    simp only [can] at hcan
    cases hadm : (role == "admin") with
    | true => rw [hadm] at hcan; simp at hcan
    | false =>
      rw [hadm] at hcan
      have hna : role ≠ "admin" := by simpa using hadm
      cases hteach : (role == "teacher") with
      | false =>
        have hnt : role ≠ "teacher" := by simpa using hteach
        exact ⟨.dashboard, .error, "Access denied.",
          by simp [dispatch, lesson_delete, hna, hnt]⟩
      | true =>
        rw [hteach] at hcan
        have hown : (lessonCourseTeacher db lid == some u) = false := by simpa using hcan
        obtain ⟨l, hlf⟩ : ∃ l, db.lessons.find? (fun x => x.id == lid) = some l := by
          simp only [actionTargetExists] at htarget
          unfold lessonCourseTeacher at htarget
          cases hlf : db.lessons.find? (fun x => x.id == lid) with
          | none => rw [hlf] at htarget; simp at htarget
          | some l => exact ⟨l, rfl⟩
        have hct : ((db.courses.find? (fun c => c.id == l.course)).map (·.teacher)) ≠ some u := by
          unfold lessonCourseTeacher at hown
          rw [hlf] at hown
          simpa using hown
        have hrt : role = "teacher" := by simpa using hteach
        exact ⟨.course_detail l.course, .error,
          "You can only delete lessons from your own courses.",
          by simp [dispatch, lesson_delete, hrt, hlf, hct]⟩
  | assignmentCreate cid post =>
    simp only [can] at hcan
    obtain ⟨h1, h2⟩ : role ≠ "admin" ∧ role ≠ "teacher" := by simpa using hcan
    exact ⟨.dashboard, .error, "Access denied.",
      by simp [dispatch, assignment_create, h1, h2]⟩
  | submissionCreate aid post =>
    simp only [can] at hcan
    have hne : role ≠ "student" := by simpa using hcan
    exact ⟨.dashboard, .error, "Access denied. Students only.",
      by simp [dispatch, submission_create, hne]⟩
  | submissionGrade sid post =>
    simp only [can] at hcan
    obtain ⟨h1, h2⟩ : role ≠ "admin" ∧ role ≠ "teacher" := by simpa using hcan
    exact ⟨.dashboard, .error, "Access denied.",
      by simp [dispatch, submission_grade, h1, h2]⟩
  | attendanceMark post =>
    simp only [can] at hcan
    obtain ⟨h1, h2⟩ : role ≠ "admin" ∧ role ≠ "teacher" := by simpa using hcan
    exact ⟨.dashboard, .error, "Access denied.",
      by simp [dispatch, attendance_mark, h1, h2]⟩
  | announcementCreate post =>
    simp only [can] at hcan
    obtain ⟨h1, h2⟩ : role ≠ "admin" ∧ role ≠ "teacher" := by simpa using hcan
    exact ⟨.dashboard, .error, "Access denied.",
      by simp [dispatch, announcement_create, h1, h2]⟩
  | announcementEdit aid post =>
    simp only [can] at hcan
    obtain ⟨ann, haf⟩ : ∃ ann, db.announcements.find? (fun x => x.id == aid) = some ann := by
      simp only [actionTargetExists] at htarget
      unfold announcementCreator at htarget
      cases haf : db.announcements.find? (fun x => x.id == aid) with
      | none => rw [haf] at htarget; simp at htarget
      | some ann => exact ⟨ann, rfl⟩
    cases hadm : (role == "admin") with
    | true => rw [hadm] at hcan; simp at hcan
    | false =>
      rw [hadm] at hcan
      have hna : role ≠ "admin" := by simpa using hadm
      have hown : ann.created_by ≠ u := by
        unfold announcementCreator at hcan
        rw [haf] at hcan
        simpa using hcan
      exact ⟨.announcement_list, .error, "Access denied.",
        by simp [dispatch, announcement_edit, hna, haf, hown]⟩
  | announcementDelete aid =>
    simp only [can] at hcan
    obtain ⟨ann, haf⟩ : ∃ ann, db.announcements.find? (fun x => x.id == aid) = some ann := by
      simp only [actionTargetExists] at htarget
      unfold announcementCreator at htarget
      cases haf : db.announcements.find? (fun x => x.id == aid) with
      | none => rw [haf] at htarget; simp at htarget
      | some ann => exact ⟨ann, rfl⟩
    cases hadm : (role == "admin") with
    | true => rw [hadm] at hcan; simp at hcan
    | false =>
      rw [hadm] at hcan
      have hna : role ≠ "admin" := by simpa using hadm
      have hown : ann.created_by ≠ u := by
        unfold announcementCreator at hcan
        rw [haf] at hcan
        simpa using hcan
      exact ⟨.announcement_list, .error, "Access denied.",
        by simp [dispatch, announcement_delete, hna, haf, hown]⟩

/-- Witness for C9: a student may not edit teacher 1's announcement — the
database is untouched and the student is redirected with a message. -/
theorem C9_denied_no_mutation_witness :
    can exDb 2 "student" (.announcementEdit 1 none) = false ∧
    (∃ t lvl m, dispatch exDb 2 "student" 0 (.announcementEdit 1 none) =
      (exDb, .redirect t [(lvl, m)])) :=
  ⟨by decide, C9_denied_no_mutation exDb 2 "student" 0 (.announcementEdit 1 none)
    rfl (by decide)⟩

/-- C5. The admin bulk action only flips status on selected submissions,
leaving marks_obtained, graded_by, graded_at (and feedback) untouched and
unselected rows entirely unchanged; the individual grading handler stores
marks_obtained, feedback, status, graded_by and graded_at together in the
one save of the target submission. -/
theorem C5_grading_frame (subs : List SubmissionRec) (selected : List Nat)
    (db : DB) (userId : Nat) (role : String) (now submissionId : Nat)
    (sub : SubmissionRec) (p : GradePost)
    (hrole : role = "admin" ∨ role = "teacher")
    (hfind : db.submissions.find? (fun s => s.id == submissionId) = some sub)
    (hvalid : gradingFormValid p = true) :
    (∀ (j : Fin (mark_graded subs selected).length) (i : Fin subs.length),
      (j : Nat) = (i : Nat) →
      ((mark_graded subs selected).get j).marks_obtained = (subs.get i).marks_obtained ∧
      ((mark_graded subs selected).get j).graded_by = (subs.get i).graded_by ∧
      ((mark_graded subs selected).get j).graded_at = (subs.get i).graded_at ∧
      ((mark_graded subs selected).get j).feedback = (subs.get i).feedback ∧
      (selected.contains (subs.get i).id = true →
        ((mark_graded subs selected).get j).status = "graded") ∧
      (selected.contains (subs.get i).id = false →
        (mark_graded subs selected).get j = subs.get i)) ∧
    (submission_grade db userId role now submissionId (some p)).1.submissions =
      db.submissions.map (fun s =>
        if s.id == submissionId then
          { s with marks_obtained := p.marks_obtained, feedback := p.feedback,
                   status := p.status, graded_by := some userId, graded_at := some now }
        else s) := by
  constructor
  · intro j i hji
    have hi : (i : Nat) < subs.length := i.isLt
    have hget : (mark_graded subs selected).get j =
        (if selected.contains (subs.get i).id = true
          then { subs.get i with status := "graded" } else subs.get i) := by
      rw [List.get_eq_getElem, List.get_eq_getElem]
      simp only [mark_graded, hji, List.getElem_map]
    by_cases hc : selected.contains (subs.get i).id = true
    · rw [hget, if_pos hc]
      refine ⟨rfl, rfl, rfl, rfl, fun _ => rfl, fun hcf => ?_⟩
      rw [hc] at hcf
      cases hcf
    · rw [hget, if_neg hc]
      rw [Bool.not_eq_true] at hc
      refine ⟨rfl, rfl, rfl, rfl, fun hct => ?_, fun _ => rfl⟩
      rw [hc] at hct
      cases hct
  · rcases hrole with h | h <;> subst h <;> simp [submission_grade, hfind, hvalid]

/-- Witness for C5: on the example data, bulk-marking submission 1 keeps its
marks empty, and teacher 1 grading it with 85 sets all grading fields at once. -/
theorem C5_grading_frame_witness :
    (((mark_graded exDb.submissions [1]).get
        ⟨0, by decide⟩).marks_obtained = (exDb.submissions.get ⟨0, by decide⟩).marks_obtained ∧
      ((mark_graded exDb.submissions [1]).get
        ⟨0, by decide⟩).graded_by = (exDb.submissions.get ⟨0, by decide⟩).graded_by) ∧
    (submission_grade exDb 1 "teacher" 5 1
        (some ⟨some 85, some "good work", "graded"⟩)).1.submissions =
      exDb.submissions.map (fun s =>
        if s.id == 1 then
          { s with marks_obtained := some 85, feedback := some "good work",
                   status := "graded", graded_by := some 1, graded_at := some 5 }
        else s) := by
  have h := C5_grading_frame exDb.submissions [1] exDb 1 "teacher" 5 1
    ⟨1, 1, 3, "a.txt", none, none, "pending", none, none⟩
    ⟨some 85, some "good work", "graded"⟩ (Or.inr rfl) (by decide) (by decide)
  have ha := h.1 ⟨0, by decide⟩ ⟨0, by decide⟩ rfl
  exact ⟨⟨ha.1, ha.2.1⟩, h.2⟩

end EduEco
